import Mathlib

/-!
# TaskAnalyzer (frontend/script.js)

A shallow embedding of the `TaskAnalyzer` class of `frontend/script.js`: the working task
list, form validation, removal by position, the analysis request cycle and the rendering of
results and suggestions.  The page (the instance fields and the parts of the document the
class reads and writes) is an explicit state; every DOM mutation and every network request
is also appended to a log, so that the order of effects can be stated.

Platform functions that the script calls but does not define (`parseFloat`, `parseInt`,
`String.prototype.trim`, `JSON.parse`, ToString on a number, ToPrimitive on an array or an
object, ToNumber on a string, the text of engine-made `TypeError`s) are fields of `Host`; the
outcome of `fetch` is a function from the request to a `FetchOutcome`.  `JSON.stringify` is
modelled: the request body is the JSON text it returns, given by its syntax tree.

A finite number is given by its exact value, so a decimal literal of the script stands for
the value of the double it denotes: `0.7` is 3152519739159347/4503599627370496.
-/

set_option autoImplicit false

namespace TaskAnalyzer

/-! ## JavaScript values -/

/-- A JavaScript number, by its exact value: `fin q` is the finite number of value `q`
(`+0` and `-0` are both `fin 0`, which no operation below tells apart). -/
inductive JSNumber where
  | nan
  | negInf
  | fin (q : ℚ)
  | posInf
  deriving DecidableEq

namespace JSNumber

/-- JavaScript `a < b` on numbers: false as soon as one side is `NaN`. -/
def lt : JSNumber → JSNumber → Bool
  | nan, _ => false
  | _, nan => false
  | negInf, negInf => false
  | negInf, _ => true
  | fin _, negInf => false
  | fin a, fin b => decide (a < b)
  | fin _, posInf => true
  | posInf, _ => false

/-- JavaScript `a <= b` on numbers: false as soon as one side is `NaN`. -/
def le : JSNumber → JSNumber → Bool
  | nan, _ => false
  | _, nan => false
  | negInf, _ => true
  | fin _, negInf => false
  | fin a, fin b => decide (a ≤ b)
  | fin _, posInf => true
  | posInf, posInf => true
  | posInf, _ => false

/-- JavaScript `a > b` on numbers. -/
def gt (a b : JSNumber) : Bool := lt b a

/-- JavaScript `a >= b` on numbers. -/
def ge (a b : JSNumber) : Bool := le b a

/-- ToBoolean on a number: `NaN` and zero are falsy. -/
def truthy : JSNumber → Bool
  | nan => false
  | fin q => decide (q ≠ 0)
  | _ => true

end JSNumber

/-- A JavaScript value as `JSON.parse` can produce it, together with `undefined` (the value
of a property that is not there).  An object is the list of its own properties, in the
order in which they are enumerated. -/
inductive JSValue where
  | undefined
  | null
  | bool (b : Bool)
  | num (n : JSNumber)
  | str (s : String)
  | arr (items : List JSValue)
  | obj (props : List (String × JSValue))

/-- A thrown `Error` object, as far as the script looks at it: its `message`.  Everything
thrown on the paths below is an `Error` object: the rejections of `fetch` and of
`response.json()`, the `TypeError`s of the engine and the `new Error(...)` of the script. -/
structure Thrown where
  message : String
  deriving DecidableEq

/-- The platform functions the script relies on. -/
structure Host where
  /-- The global `parseFloat`. -/
  parseFloat : String → JSNumber
  /-- The global `parseInt`, called with one argument. -/
  parseInt : String → JSNumber
  /-- The method `String.prototype.trim`. -/
  trim : String → String
  /-- The function `JSON.parse`: the parsed value, or the message of the `SyntaxError`. -/
  jsonParse : String → Except String JSValue
  /-- ToString on a number. -/
  numberToString : JSNumber → String
  /-- ToPrimitive on an array or an object, which ToString and ToNumber go through: the
  string that `toString` yields, or the `TypeError` thrown when neither `toString` nor
  `valueOf` yields a primitive (an object with an own, non-callable `toString`, as JSON can
  carry, or an array holding one). -/
  objectToPrimitive : JSValue → Except Thrown String
  /-- ToNumber on a string. -/
  stringToNumber : String → JSNumber
  /-- Message of the `TypeError` raised by reading the property `key` of the value `v`,
  which is `null` or `undefined`. -/
  nullishReadMessage : JSValue → String → String
  /-- Message of the `TypeError` raised by calling `callee`, which is not a function. -/
  notFunctionMessage : String → String

namespace JSValue

/-- ToBoolean. -/
def truthy : JSValue → Bool
  | undefined => false
  | null => false
  | bool b => b
  | num n => n.truthy
  | str s => decide (s ≠ "")
  | arr _ => true
  | obj _ => true

/-- Whether the value is a primitive: anything but an array or an object. -/
def isPrimitive : JSValue → Bool
  | arr _ => false
  | obj _ => false
  | _ => true

/-- ToString, as used by template literals, `+` with a string and `new Error(x)`: the
string, or the `TypeError` that ToPrimitive throws on an array or an object. -/
def toStr (h : Host) : JSValue → Except Thrown String
  | undefined => Except.ok "undefined"
  | null => Except.ok "null"
  | bool true => Except.ok "true"
  | bool false => Except.ok "false"
  | num n => Except.ok (h.numberToString n)
  | str s => Except.ok s
  | arr items => h.objectToPrimitive (arr items)
  | obj props => h.objectToPrimitive (obj props)

/-- ToNumber, as used by the relational operators against a number: the number, or the
`TypeError` that ToPrimitive throws on an array or an object. -/
def toNumber (h : Host) : JSValue → Except Thrown JSNumber
  | undefined => Except.ok JSNumber.nan
  | null => Except.ok (JSNumber.fin 0)
  | bool true => Except.ok (JSNumber.fin 1)
  | bool false => Except.ok (JSNumber.fin 0)
  | num n => Except.ok n
  | str s => Except.ok (h.stringToNumber s)
  | arr items => (h.objectToPrimitive (arr items)).map h.stringToNumber
  | obj props => (h.objectToPrimitive (obj props)).map h.stringToNumber

/-- Whether the value is `null` or `undefined`. -/
def isNullish : JSValue → Bool
  | undefined => true
  | null => true
  | _ => false

/-- The value of `v.key` for a `v` that is neither `null` nor `undefined`, for the keys the
script reads (`error`, `tasks`, `title`, `due_date`, `estimated_hours`, `importance`,
`dependencies`, `priority_score`, `explanation`), none of which is inherited from a
prototype: the own property of an object, `undefined` when it has none or when `v` is not
an object. -/
def prop (v : JSValue) (key : String) : JSValue :=
  match v with
  | obj props => (props.lookup key).getD undefined
  | _ => undefined

/-- The property read `v.key`: a `TypeError` on `null` and `undefined`, `prop v key`
otherwise. -/
def get (h : Host) (v : JSValue) (key : String) : Except Thrown JSValue :=
  if v.isNullish then Except.error ⟨h.nullishReadMessage v key⟩ else Except.ok (v.prop key)

/-- The test `Array.isArray(v)`. -/
def isArray : JSValue → Bool
  | arr _ => true
  | _ => false

end JSValue

/-! ## Data model -/

/-- The object literal built by `addTask` (script.js:49-55). -/
structure Task where
  title : String
  due_date : String
  estimated_hours : JSNumber
  importance : JSNumber
  dependencies : List String
  deriving DecidableEq

/-- The task object as a JavaScript value. -/
def Task.toJS (t : Task) : JSValue :=
  JSValue.obj
    [("title", JSValue.str t.title),
     ("due_date", JSValue.str t.due_date),
     ("estimated_hours", JSValue.num t.estimated_hours),
     ("importance", JSValue.num t.importance),
     ("dependencies", JSValue.arr (t.dependencies.map JSValue.str))]

/-- A DOM element as far as the script sets it: tag, `className` and `innerHTML`. -/
structure Elem where
  tag : String
  className : String
  innerHTML : String
  deriving DecidableEq

/-- A JSON text, by its syntax tree.  `number q` is the number token that
`JSON.stringify` writes for the finite number of value `q`, which reads back as that
number. -/
inductive Json where
  | null
  | bool (b : Bool)
  | number (q : ℚ)
  | string (s : String)
  | array (items : List Json)
  | object (members : List (String × Json))

/-- The JSON text that `JSON.stringify` writes for a number: `null` for `NaN` and the
infinities. -/
def JSNumber.toJson : JSNumber → Json
  | JSNumber.fin q => Json.number q
  | _ => Json.null

mutual

/-- The call `JSON.stringify(v)` on the values at hand, none of which has a `toJSON`
method: `none` is the result `undefined`. -/
def JSValue.stringify : JSValue → Option Json
  | JSValue.undefined => none
  | JSValue.null => some Json.null
  | JSValue.bool b => some (Json.bool b)
  | JSValue.num n => some n.toJson
  | JSValue.str s => some (Json.string s)
  | JSValue.arr items => some (Json.array (stringifyItems items))
  | JSValue.obj props => some (Json.object (stringifyProps props))

/-- The elements of a serialised array: `undefined` is written `null`. -/
def stringifyItems : List JSValue → List Json
  | [] => []
  | v :: rest => (v.stringify).getD Json.null :: stringifyItems rest

/-- The members of a serialised object: a property whose value is `undefined` is left
out. -/
def stringifyProps : List (String × JSValue) → List (String × Json)
  | [] => []
  | (key, v) :: rest =>
    match v.stringify with
    | none => stringifyProps rest
    | some j => (key, j) :: stringifyProps rest

end

/-- The arguments of a `fetch` call (script.js:144-153); `body` is the result of
`JSON.stringify`. -/
structure Request where
  url : String
  method : String
  headers : List (String × String)
  body : Option Json

/-- What a `fetch` call followed by `response.json()` can come to: the `fetch` promise
rejects, or it yields a response with an `ok` flag whose `json()` promise either rejects or
yields the parsed body. -/
inductive FetchOutcome where
  | rejected (reason : Thrown)
  | responded (ok : Bool) (body : Except Thrown JSValue)

/-- One observable effect on the document or the network, in the script's own terms. -/
inductive Effect where
  | classAdd (id cls : String)
  | classRemove (id cls : String)
  | setText (id text : String)
  | setInnerHTML (id html : String)
  | appendChild (id : String) (child : Elem)
  | formReset (id : String)
  | fetch (req : Request)

/-- The inputs of `#task-form`: `get name` is `formData.get(name)` (`none` for `null`) and
`value id` is `document.getElementById(id).value`. -/
structure Form where
  get : String → Option String
  value : String → String

/-- The `TaskAnalyzer` instance together with the parts of the document it reads and
writes. -/
structure Page where
  /-- The field `this.tasks`, the working list. -/
  tasks : List Task
  /-- The `id` of the element matching `.tab-content.active`. -/
  activeTab : String
  /-- The `value` of `#bulk-input`. -/
  bulkInput : String
  /-- The `value` of `#strategy`. -/
  strategy : String
  /-- The current inputs of `#task-form`. -/
  form : Form
  /-- The inputs of `#task-form` after a reset. -/
  formDefault : Form
  /-- Whether `#loading` has the class `hidden`. -/
  loadingHidden : Bool
  /-- Whether `#error` has the class `hidden`. -/
  errorHidden : Bool
  /-- The `textContent` of `#error`. -/
  errorText : String
  /-- The children of `#added-tasks`. -/
  addedTasks : List Elem
  /-- The children of `#task-results`. -/
  taskResults : List Elem
  /-- Whether `#results` has the class `hidden`. -/
  resultsHidden : Bool
  /-- The children of `#suggestions-results`. -/
  suggestions : List Elem
  /-- Every effect so far, oldest first. -/
  log : List Effect

/-- The field `this.apiBase` (script.js:4). -/
def apiBase : String := "http://localhost:8000/api/tasks"

/-! ## Display helpers (script.js:243-260) -/

/-- The method `showLoading(show)` (script.js:243-250). -/
def showLoading (visible : Bool) (st : Page) : Page :=
  if visible then
    { st with loadingHidden := false, log := st.log ++ [Effect.classRemove "loading" "hidden"] }
  else
    { st with loadingHidden := true, log := st.log ++ [Effect.classAdd "loading" "hidden"] }

/-- The method `showError(message)` (script.js:252-256). -/
def showError (message : String) (st : Page) : Page :=
  { st with
    errorText := message
    errorHidden := false
    log := st.log ++ [Effect.setText "error" message, Effect.classRemove "error" "hidden"] }

/-- The method `hideError()` (script.js:258-260). -/
def hideError (st : Page) : Page :=
  { st with errorHidden := true, log := st.log ++ [Effect.classAdd "error" "hidden"] }

/-! ## Task collection (script.js:45-104) -/

/-- Message of the first rule of `validateTask`. -/
def msgMissing : String := "Please fill in all required fields"

/-- Message of the second rule of `validateTask`. -/
def msgHours : String := "Estimated hours must be greater than 0"

/-- Message of the third rule of `validateTask`. -/
def msgImportance : String := "Importance must be between 1 and 10"

/-- The method `validateTask(task)` (script.js:67-84): the returned boolean and the page
after the call. -/
def validateTask (task : Task) (st : Page) : Bool × Page :=
  if !(JSValue.str task.title).truthy || !(JSValue.str task.due_date).truthy
      || !(JSValue.num task.estimated_hours).truthy || !(JSValue.num task.importance).truthy then
    (false, showError msgMissing st)
  else if task.estimated_hours.le (JSNumber.fin 0) then
    (false, showError msgHours st)
  else if task.importance.lt (JSNumber.fin 1) || task.importance.gt (JSNumber.fin 10) then
    (false, showError msgImportance st)
  else
    (true, st)

/-- The markup of one `li` of the task list (script.js:92-96). -/
def taskItemHTML (h : Host) (task : Task) (index : Nat) : String :=
  "\n                <strong>" ++ task.title ++ "</strong><br>\n                Due: "
    ++ task.due_date ++ " | Hours: " ++ h.numberToString task.estimated_hours
    ++ " | Importance: " ++ h.numberToString task.importance
    ++ "/10\n                <button onclick=\"taskAnalyzer.removeTask(" ++ toString index
    ++ ")\" style=\"float: right; padding: 5px 10px; font-size: 12px;\">Remove</button>\n            "

/-- The `forEach` of `updateTaskList` (script.js:90-98), from position `index` on. -/
def updateTaskListFrom (h : Host) : Nat → List Task → Page → Page
  | _, [], st => st
  | index, task :: rest, st =>
    let li : Elem := { tag := "li", className := "", innerHTML := taskItemHTML h task index }
    updateTaskListFrom h (index + 1) rest
      { st with
        addedTasks := st.addedTasks ++ [li]
        log := st.log ++ [Effect.appendChild "added-tasks" li] }

/-- The method `updateTaskList()` (script.js:86-99). -/
def updateTaskList (h : Host) (st : Page) : Page :=
  updateTaskListFrom h 0 st.tasks
    { st with addedTasks := [], log := st.log ++ [Effect.setInnerHTML "added-tasks" ""] }

/-- The expression `a || b` for `a` a string or `null` and `b` a string. -/
def orValue (a : Option String) (b : String) : String :=
  match a with
  | some s => if (JSValue.str s).truthy then s else b
  | none => b

/-- The object literal of `addTask` (script.js:49-55). -/
def readTask (h : Host) (form : Form) : Task :=
  { title := orValue (form.get "title") (form.value "title")
    due_date := orValue (form.get "due_date") (form.value "due_date")
    estimated_hours :=
      h.parseFloat (orValue (form.get "estimated_hours") (form.value "estimated_hours"))
    importance := h.parseInt (orValue (form.get "importance") (form.value "importance"))
    dependencies := [] }

/-- The method `addTask()` (script.js:45-65). -/
def addTask (h : Host) (st : Page) : Page :=
  let task := readTask h st.form
  let r := validateTask task st
  if !r.1 then
    r.2
  else
    let st1 : Page := { r.2 with tasks := r.2.tasks ++ [task] }
    let st2 := updateTaskList h st1
    { st2 with form := st2.formDefault, log := st2.log ++ [Effect.formReset "task-form"] }

/-- The call `xs.splice(start, 1)` for an integer `start`, as the array it leaves behind
(ECMAScript, Array.prototype.splice): a negative start counts from the end, the start is
clamped to `0 .. len`, and at most one element is deleted. -/
def splice1 {α : Type} (xs : List α) (start : Int) : List α :=
  let len : Int := xs.length
  let actualStart : Int := if start < 0 then max (len + start) 0 else min start len
  let actualDeleteCount : Int := min (max 1 0) (len - actualStart)
  xs.take actualStart.toNat ++ xs.drop (actualStart + actualDeleteCount).toNat

/-- The method `removeTask(index)` (script.js:101-104) for an integer index. -/
def removeTask (h : Host) (index : Int) (st : Page) : Page :=
  updateTaskList h { st with tasks := splice1 st.tasks index }

/-! ## Rendering (script.js:184-241) -/

/-- The literal `0.7` of `getPriorityClass`: the double nearest to 7/10, by its exact
value 6305039478318694 / 2 ^ 53. -/
def highThreshold : ℚ := 3152519739159347 / 4503599627370496

/-- The literal `0.5` of `getPriorityClass`, which is a double. -/
def mediumThreshold : ℚ := 1 / 2

/-- The method `getPriorityClass(score)` (script.js:237-241) on a number. -/
def getPriorityClassNum (score : JSNumber) : String :=
  if score.ge (JSNumber.fin highThreshold) then "high-priority"
  else if score.ge (JSNumber.fin mediumThreshold) then "medium-priority"
  else "low-priority"

/-- The method `getPriorityClass(score)` (script.js:237-241) on any value: `>=` against a
number compares after ToNumber, which can throw. -/
def getPriorityClass (h : Host) (score : JSValue) : Except Thrown String :=
  (score.toNumber h).map getPriorityClassNum

/-- The call `items.join(sep)`: `null` and `undefined` give the empty string, any other
element goes through ToString, which can throw. -/
def joinJS (h : Host) (sep : String) (items : List JSValue) : Except Thrown String :=
  (items.mapM fun (v : JSValue) => if v.isNullish then Except.ok "" else v.toStr h).map
    sep.intercalate

/-- The markup of one result (script.js:196-206). -/
def resultHTML (title score due hours importance depCount depList explanation : String) :
    String :=
  "\n                <div class=\"task-title\">" ++ title
    ++ "</div>\n                <div class=\"task-score\">" ++ score
    ++ "</div>\n                <div class=\"task-details\">\n                    <div class=\"task-detail\"><strong>Due:</strong> "
    ++ due
    ++ "</div>\n                    <div class=\"task-detail\"><strong>Hours:</strong> "
    ++ hours
    ++ "</div>\n                    <div class=\"task-detail\"><strong>Importance:</strong> "
    ++ importance
    ++ "/10</div>\n                    <div class=\"task-detail\"><strong>Dependencies:</strong> "
    ++ depCount ++ depList
    ++ "</div>\n                </div>\n                <div class=\"task-explanation\">"
    ++ explanation ++ "</div>\n            "

/-- The body of the `forEach` callback of `displayResults` up to the `appendChild`
(script.js:189-206): the `div` it builds, or what it throws. -/
def resultDiv (h : Host) (task : JSValue) : Except Thrown Elem := do
  let score ← task.get h "priority_score"
  let priorityClass ← getPriorityClass h score
  let className := "task-result " ++ priorityClass
  let deps ← task.get h "dependencies"
  let depCount : Nat := match deps with
    | JSValue.arr items => items.length
    | _ => 0
  let depList : String ← match deps with
    | JSValue.arr items =>
      if items.length > 0 then (joinJS h ", " items).map fun joined => " (" ++ joined ++ ")"
      else Except.ok ""
    | _ => Except.ok ""
  let title ← (task.prop "title").toStr h
  let scoreText ← score.toStr h
  let due ← (task.prop "due_date").toStr h
  let hours ← (task.prop "estimated_hours").toStr h
  let importance ← (task.prop "importance").toStr h
  let explanation ← (task.prop "explanation").toStr h
  return {
    tag := "div"
    className := className
    innerHTML :=
      resultHTML title scoreText due hours importance (toString depCount) depList
        explanation }

/-- The `forEach` of `displayResults` (script.js:188-209): what it throws, if anything, and
the page when it ends. -/
def displayResultsLoop (h : Host) : List JSValue → Page → Option Thrown × Page
  | [], st => (none, st)
  | task :: rest, st =>
    match resultDiv h task with
    | Except.error e => (some e, st)
    | Except.ok taskDiv =>
      displayResultsLoop h rest
        { st with
          taskResults := st.taskResults ++ [taskDiv]
          log := st.log ++ [Effect.appendChild "task-results" taskDiv] }

/-- The method call `name.forEach(f)` on a value `xs` that is not an array: the
`TypeError`. -/
def forEachTypeError (h : Host) (name : String) (xs : JSValue) : Thrown :=
  if xs.isNullish then ⟨h.nullishReadMessage xs "forEach"⟩
  else ⟨h.notFunctionMessage (name ++ ".forEach")⟩

/-- The method `displayResults(tasks)` (script.js:184-212): what it throws, if anything, and
the page when it ends. -/
def displayResults (h : Host) (tasks : JSValue) (st : Page) : Option Thrown × Page :=
  let st1 : Page :=
    { st with taskResults := [], log := st.log ++ [Effect.setInnerHTML "task-results" ""] }
  match tasks with
  | JSValue.arr items =>
    match displayResultsLoop h items st1 with
    | (some e, st2) => (some e, st2)
    | (none, st2) =>
      (none,
        { st2 with
          resultsHidden := false
          log := st2.log ++ [Effect.classRemove "results" "hidden"] })
  | other => (some (forEachTypeError h "tasks" other), st1)

/-- The markup of one suggestion (script.js:222-231). -/
def suggestionHTML (ordinal title score due hours importance explanation : String) : String :=
  "\n                <div class=\"task-title\">#" ++ ordinal ++ ": " ++ title
    ++ "</div>\n                <div class=\"task-score\">" ++ score
    ++ "</div>\n                <div class=\"task-details\">\n                    <div class=\"task-detail\"><strong>Due:</strong> "
    ++ due
    ++ "</div>\n                    <div class=\"task-detail\"><strong>Hours:</strong> "
    ++ hours
    ++ "</div>\n                    <div class=\"task-detail\"><strong>Importance:</strong> "
    ++ importance
    ++ "/10</div>\n                </div>\n                <div class=\"task-explanation\">"
    ++ explanation ++ "</div>\n            "

/-- The body of the `forEach` callback of `displaySuggestions` up to the `appendChild`
(script.js:219-231): the `div` it builds, or what it throws. -/
def suggestionDiv (h : Host) (task : JSValue) (index : Nat) : Except Thrown Elem := do
  let titleValue ← task.get h "title"
  let title ← titleValue.toStr h
  let score ← (task.prop "priority_score").toStr h
  let due ← (task.prop "due_date").toStr h
  let hours ← (task.prop "estimated_hours").toStr h
  let importance ← (task.prop "importance").toStr h
  let explanation ← (task.prop "explanation").toStr h
  return {
    tag := "div"
    className := "task-result high-priority"
    innerHTML :=
      suggestionHTML (toString (index + 1)) title score due hours importance explanation }

/-- The `forEach` of `displaySuggestions` (script.js:218-234), from position `index` on. -/
def displaySuggestionsFrom (h : Host) : Nat → List JSValue → Page → Option Thrown × Page
  | _, [], st => (none, st)
  | index, task :: rest, st =>
    match suggestionDiv h task index with
    | Except.error e => (some e, st)
    | Except.ok taskDiv =>
      displaySuggestionsFrom h (index + 1) rest
        { st with
          suggestions := st.suggestions ++ [taskDiv]
          log := st.log ++ [Effect.appendChild "suggestions-results" taskDiv] }

/-- The heading element that `innerHTML = '<h3>Top 3 Tasks for Today:</h3>'` leaves in
`#suggestions-results`. -/
def suggestionsHeading : Elem :=
  { tag := "h3", className := "", innerHTML := "Top 3 Tasks for Today:" }

/-- The method `displaySuggestions(suggestions)` (script.js:214-235): what it throws, if
anything, and the page when it ends. -/
def displaySuggestions (h : Host) (suggestions : JSValue) (st : Page) :
    Option Thrown × Page :=
  let st1 : Page :=
    { st with
      suggestions := [suggestionsHeading]
      log := st.log
        ++ [Effect.setInnerHTML "suggestions-results" "<h3>Top 3 Tasks for Today:</h3>"] }
  match suggestions with
  | JSValue.arr items => displaySuggestionsFrom h 0 items st1
  | other => (some (forEachTypeError h "suggestions" other), st1)

/-! ## Analysis (script.js:106-167) -/

/-- The message shown when there is nothing to analyze (script.js:134). -/
def msgNoTasks : String := "Please add at least one task to analyze"

/-- The message shown for a blank bulk input (script.js:118). -/
def msgBulkBlank : String :=
  "Please enter tasks in JSON format or switch to single task input"

/-- The message of the error thrown for a bulk input that is not an array (script.js:125). -/
def msgNotArray : String := "Input must be an array of tasks"

/-- The request that `analyzeTasks` sends for the tasks `ts` and the strategy `strategy`
(script.js:144-153): the body is `JSON.stringify` of the object with the two properties
`tasks` and `strategy`. -/
def analyzeRequest (ts : List JSValue) (strategy : String) : Request :=
  { url := apiBase ++ "/analyze/"
    method := "POST"
    headers := [("Content-Type", "application/json")]
    body :=
      (JSValue.obj [("tasks", JSValue.arr ts), ("strategy", JSValue.str strategy)]).stringify }

/-- The `try` block of `analyzeTasks` (script.js:144-161): what it throws, if anything, and
the page when it ends. -/
def analyzeTry (h : Host) (net : Request → FetchOutcome) (tasksToAnalyze : List JSValue)
    (strategy : String) (st : Page) : Option Thrown × Page :=
  let req : Request := analyzeRequest tasksToAnalyze strategy
  let st1 : Page := { st with log := st.log ++ [Effect.fetch req] }
  match net req with
  | FetchOutcome.rejected e => (some e, st1)
  | FetchOutcome.responded _ (Except.error e) => (some e, st1)
  | FetchOutcome.responded ok (Except.ok data) =>
    if !ok then
      match data.get h "error" with
      | Except.error e => (some e, st1)
      | Except.ok err =>
        let shown := if err.truthy then err else JSValue.str "Failed to analyze tasks"
        match shown.toStr h with
        | Except.error e => (some e, st1)
        | Except.ok message => (some ⟨message⟩, st1)
    else
      match data.get h "tasks" with
      | Except.error e => (some e, st1)
      | Except.ok tasks => displayResults h tasks st1

/-- The rest of `analyzeTasks` once `tasksToAnalyze` is an array (script.js:133-166). -/
def analyzeResolved (h : Host) (net : Request → FetchOutcome) (tasksToAnalyze : List JSValue)
    (st : Page) : Page :=
  if tasksToAnalyze.length = 0 then
    showError msgNoTasks st
  else
    let strategy := st.strategy
    let st1 := hideError (showLoading true st)
    let r := analyzeTry h net tasksToAnalyze strategy st1
    let st2 := match r.1 with
      | some error => showError ("Error analyzing tasks: " ++ error.message) r.2
      | none => r.2
    showLoading false st2

/-- The method `analyzeTasks()` (script.js:106-167), run to completion against the network
behaviour `net`. -/
def analyzeTasks (h : Host) (net : Request → FetchOutcome) (st : Page) : Page :=
  if st.activeTab = "form-tab" then
    analyzeResolved h net (st.tasks.map Task.toJS) st
  else
    let bulkInput := h.trim st.bulkInput
    if !(JSValue.str bulkInput).truthy then
      showError msgBulkBlank st
    else
      match h.jsonParse bulkInput with
      | Except.error message => showError ("Invalid JSON format: " ++ message) st
      | Except.ok (JSValue.arr items) => analyzeResolved h net items st
      | Except.ok _ => showError ("Invalid JSON format: " ++ msgNotArray) st

/-! ## The rules of validation, in the words of the specification -/

/-- An empty or falsy number: `NaN` or zero. -/
def JSNumber.Falsy : JSNumber → Prop
  | JSNumber.nan => True
  | JSNumber.fin q => q = 0
  | _ => False

/-- The number is `> 0`. -/
def JSNumber.Positive : JSNumber → Prop
  | JSNumber.fin q => 0 < q
  | JSNumber.posInf => True
  | _ => False

/-- The number is `<= 0`. -/
def JSNumber.NonPositive : JSNumber → Prop
  | JSNumber.fin q => q ≤ 0
  | JSNumber.negInf => True
  | _ => False

/-- The number is `>= lo` and `<= hi`. -/
def JSNumber.Between (lo hi : ℚ) : JSNumber → Prop
  | JSNumber.fin q => lo ≤ q ∧ q ≤ hi
  | _ => False

/-- The number is `< lo` or `> hi`. -/
def JSNumber.Outside (lo hi : ℚ) : JSNumber → Prop
  | JSNumber.fin q => q < lo ∨ hi < q
  | JSNumber.negInf => True
  | JSNumber.posInf => True
  | JSNumber.nan => False

instance : DecidablePred JSNumber.Falsy := fun n => by
  cases n <;> simp only [JSNumber.Falsy] <;> infer_instance

instance : DecidablePred JSNumber.Positive := fun n => by
  cases n <;> simp only [JSNumber.Positive] <;> infer_instance

instance : DecidablePred JSNumber.NonPositive := fun n => by
  cases n <;> simp only [JSNumber.NonPositive] <;> infer_instance

instance (lo hi : ℚ) : DecidablePred (JSNumber.Between lo hi) := fun n => by
  cases n <;> simp only [JSNumber.Between] <;> infer_instance

instance (lo hi : ℚ) : DecidablePred (JSNumber.Outside lo hi) := fun n => by
  cases n <;> simp only [JSNumber.Outside] <;> infer_instance

/-- Rule 1, missing field: title, due_date, estimated_hours or importance is empty or
falsy. -/
def Task.MissingField (t : Task) : Prop :=
  t.title = "" ∨ t.due_date = "" ∨ t.estimated_hours.Falsy ∨ t.importance.Falsy

/-- Rule 2, non-positive hours: estimated_hours is `<= 0`. -/
def Task.NonPositiveHours (t : Task) : Prop :=
  t.estimated_hours.NonPositive

/-- Rule 3, importance out of range: importance is `< 1` or `> 10`. -/
def Task.ImportanceOutOfRange (t : Task) : Prop :=
  t.importance.Outside 1 10

instance : DecidablePred Task.MissingField := fun t => by
  unfold Task.MissingField; infer_instance

instance : DecidablePred Task.NonPositiveHours := fun t => by
  unfold Task.NonPositiveHours; infer_instance

instance : DecidablePred Task.ImportanceOutOfRange := fun t => by
  unfold Task.ImportanceOutOfRange; infer_instance

/-! ## Effects of a call, and what `analyzeTasks` resolves -/

/-- The effects of a call that took the page from `st` to `st'`. -/
def effectsSince (st st' : Page) : List Effect :=
  st'.log.drop st.log.length

/-- The effect shows the loading indicator: `hidden` is removed from `#loading`. -/
def Effect.showsLoading : Effect → Bool
  | Effect.classRemove id cls => id == "loading" && cls == "hidden"
  | _ => false

/-- The effect clears the loading indicator: `hidden` is added to `#loading`. -/
def Effect.clearsLoading : Effect → Bool
  | Effect.classAdd id cls => id == "loading" && cls == "hidden"
  | _ => false

/-- The request of a `fetch` effect. -/
def Effect.request? : Effect → Option Request
  | Effect.fetch req => some req
  | _ => none

/-- The network requests among the effects, in order. -/
def requestsIn (ev : List Effect) : List Request :=
  ev.filterMap Effect.request?

/-- The effect neither touches the loading indicator nor is a network request. -/
def Effect.Quiet (e : Effect) : Prop :=
  e.showsLoading = false ∧ e.clearsLoading = false ∧ e.request? = none

/-- The sequence `ts` is what `analyzeTasks` resolves on the page: the working list on the
form tab; on the other tab the bulk text is not blank and parses to the array `ts`. -/
def Resolves (h : Host) (st : Page) (ts : List JSValue) : Prop :=
  (st.activeTab = "form-tab" ∧ ts = st.tasks.map Task.toJS)
    ∨ (st.activeTab ≠ "form-tab" ∧ h.trim st.bulkInput ≠ ""
        ∧ h.jsonParse (h.trim st.bulkInput) = Except.ok (JSValue.arr ts))

/-- Task resolution yields zero tasks: the form tab with an empty working list, or the
other tab with a bulk text that is not blank and parses to the empty array. -/
def ZeroTasks (h : Host) (st : Page) : Prop :=
  Resolves h st []

/-- The bulk text is blank after trimming. -/
def BulkBlank (h : Host) (st : Page) : Prop :=
  st.activeTab ≠ "form-tab" ∧ h.trim st.bulkInput = ""

/-- The bulk text is not blank and `JSON.parse` throws on it, with the message `m`. -/
def BulkUnparseable (h : Host) (st : Page) (m : String) : Prop :=
  st.activeTab ≠ "form-tab" ∧ h.trim st.bulkInput ≠ ""
    ∧ h.jsonParse (h.trim st.bulkInput) = Except.error m

/-- The bulk text is not blank and parses to the value `v`, which is not an array. -/
def BulkNotArray (h : Host) (st : Page) (v : JSValue) : Prop :=
  st.activeTab ≠ "form-tab" ∧ h.trim st.bulkInput ≠ ""
    ∧ h.jsonParse (h.trim st.bulkInput) = Except.ok v ∧ v.isArray = false

/-! ## The suggestions list, in the words of the specification -/

/-- The text of a value in a template literal when ToString does not throw. -/
def JSValue.text (h : Host) (v : JSValue) : String :=
  match v.toStr h with
  | Except.ok s => s
  | Except.error _ => ""

/-- The six properties that `displaySuggestions` renders. -/
def renderedKeys : List String :=
  ["title", "priority_score", "due_date", "estimated_hours", "importance", "explanation"]

/-- A suggested task as the data model has it: not `null`, and each rendered property a
primitive (a string, a number, a boolean, `null`) or absent, not an object or an array. -/
def Renderable (task : JSValue) : Prop :=
  task.isNullish = false ∧ ∀ key ∈ renderedKeys, (task.prop key).isPrimitive = true

instance : DecidablePred Renderable := fun task => by
  unfold Renderable; infer_instance

/-- The entry for the task at 0-based position `k`: a `div` in high-priority styling whose
title carries the ordinal `k + 1`. -/
def suggestionEntry (h : Host) (task : JSValue) (k : Nat) : Elem :=
  { tag := "div"
    className := "task-result high-priority"
    innerHTML :=
      suggestionHTML (toString (k + 1)) ((task.prop "title").text h)
        ((task.prop "priority_score").text h) ((task.prop "due_date").text h)
        ((task.prop "estimated_hours").text h) ((task.prop "importance").text h)
        ((task.prop "explanation").text h) }

/-- One entry per task, in input order, the first one at position `k`. -/
def suggestionEntriesFrom (h : Host) : Nat → List JSValue → List Elem
  | _, [] => []
  | k, task :: rest => suggestionEntry h task k :: suggestionEntriesFrom h (k + 1) rest

/-! ## The request body, in the words of the specification -/

/-- What the body carries for a task object: the five fields in the order of the object
literal, the two numbers as `JSNumber.toJson` writes them. -/
def Task.toJson (t : Task) : Json :=
  Json.object
    [("title", Json.string t.title),
     ("due_date", Json.string t.due_date),
     ("estimated_hours", t.estimated_hours.toJson),
     ("importance", t.importance.toJson),
     ("dependencies", Json.array (t.dependencies.map Json.string))]

mutual

/-- The value that a JSON text denotes, which is what its receiver reads. -/
def Json.value : Json → JSValue
  | Json.null => JSValue.null
  | Json.bool b => JSValue.bool b
  | Json.number q => JSValue.num (JSNumber.fin q)
  | Json.string s => JSValue.str s
  | Json.array items => JSValue.arr (valuesOf items)
  | Json.object members => JSValue.obj (membersOf members)

/-- The values of the elements of a JSON array. -/
def valuesOf : List Json → List JSValue
  | [] => []
  | j :: rest => j.value :: valuesOf rest

/-- The properties that the members of a JSON object denote. -/
def membersOf : List (String × Json) → List (String × JSValue)
  | [] => []
  | (key, j) :: rest => (key, j.value) :: membersOf rest

end

/-- The body of a request whose `tasks` array is `sent` and whose strategy is
`strategy`. -/
def bodyOf (sent : List Json) (strategy : String) : Json :=
  Json.object [("tasks", Json.array sent), ("strategy", Json.string strategy)]

/-! ## Doubles named by decimal numerals -/

/-- The double 0.6999. -/
def double_0_6999 : ℚ := 1576034689598305 / 2251799813685248

/-- The double 0.4999. -/
def double_0_4999 : ℚ := 2251349453722511 / 4503599627370496

/-- The double 0.9. -/
def double_0_9 : ℚ := 8106479329266893 / 9007199254740992

/-- The double 0.3. -/
def double_0_3 : ℚ := 5404319552844595 / 18014398509481984

/-- The double 0.55. -/
def double_0_55 : ℚ := 2476979795053773 / 4503599627370496

/-- The double 0.82. -/
def double_0_82 : ℚ := 7385903388887613 / 9007199254740992

/-! ## Sample data

The examples below are evaluated on these values.  `sampleHost` is a stand-in for the
JavaScript engine that agrees with it on the strings and numbers the examples use. -/

/-- The task of the first end-to-end scenario. -/
def reportTask : Task :=
  { title := "Write report", due_date := "2024-01-15", estimated_hours := JSNumber.fin 3,
    importance := JSNumber.fin 8, dependencies := [] }

/-- A task whose importance is 999. -/
def loudTask : Task :=
  { title := "Ship it", due_date := "2024-02-01", estimated_hours := JSNumber.fin 2,
    importance := JSNumber.fin 999, dependencies := [] }

/-- A task whose estimated_hours is exactly 0. -/
def zeroHoursTask : Task :=
  { title := "Idle", due_date := "2024-03-01", estimated_hours := JSNumber.fin 0,
    importance := JSNumber.fin 5, dependencies := [] }

/-- A task whose estimated_hours is `Infinity`. -/
def endlessTask : Task :=
  { title := "Forever", due_date := "2024-02-01", estimated_hours := JSNumber.posInf,
    importance := JSNumber.fin 5, dependencies := [] }

/-- A bulk input holding `endlessTask`: the numeral `1e999` parses to `Infinity`. -/
def endlessBulkText : String :=
  "[\x7b\"title\":\"Forever\",\"due_date\":\"2024-02-01\",\"estimated_hours\":1e999,\"importance\":5,\"dependencies\":[]\x7d]"

/-- A bulk input holding `loudTask`. -/
def loudBulkText : String :=
  "[\x7b\"title\":\"Ship it\",\"due_date\":\"2024-02-01\",\"estimated_hours\":2,\"importance\":999,\"dependencies\":[]\x7d]"

/-- Space, tab, line feed and carriage return. -/
def isBlankChar (c : Char) : Bool :=
  c.toNat == 32 || c.toNat == 9 || c.toNat == 10 || c.toNat == 13

/-- Trimming of the blanks of `isBlankChar` at both ends. -/
def sampleTrim (s : String) : String :=
  String.mk (((s.data.dropWhile isBlankChar).reverse.dropWhile isBlankChar).reverse)

/-- A stand-in engine for the examples. -/
def sampleHost : Host :=
  { parseFloat := fun s =>
      if s = "3" then JSNumber.fin 3 else if s = "0" then JSNumber.fin 0 else JSNumber.nan
    parseInt := fun s =>
      if s = "8" then JSNumber.fin 8 else if s = "5" then JSNumber.fin 5 else JSNumber.nan
    trim := sampleTrim
    jsonParse := fun s =>
      if s = "[]" then Except.ok (JSValue.arr [])
      else if s = loudBulkText then Except.ok (JSValue.arr [loudTask.toJS])
      else if s = endlessBulkText then Except.ok (JSValue.arr [endlessTask.toJS])
      else if s = "42" then Except.ok (JSValue.num (JSNumber.fin 42))
      else Except.error "Unexpected token"
    numberToString := fun n =>
      if n = JSNumber.fin 3 then "3" else if n = JSNumber.fin 8 then "8"
      else if n = JSNumber.fin double_0_9 then "0.9"
      else if n = JSNumber.fin double_0_3 then "0.3"
      else if n = JSNumber.fin double_0_55 then "0.55"
      else if n = JSNumber.fin double_0_82 then "0.82" else "NaN"
    objectToPrimitive := fun v =>
      match v with
      | JSValue.obj props =>
        if (props.lookup "toString").isSome then
          Except.error ⟨"Cannot convert object to primitive value"⟩
        else Except.ok "[object Object]"
      | _ => Except.ok ""
    stringToNumber := fun s => if s = "" then JSNumber.fin 0 else JSNumber.nan
    nullishReadMessage := fun v key =>
      "Cannot read properties of "
        ++ (match v with | JSValue.null => "null" | _ => "undefined")
        ++ " (reading \x27" ++ key ++ "\x27)"
    notFunctionMessage := fun callee => callee ++ " is not a function" }

/-- The form filled in with `reportTask`. -/
def reportForm : Form :=
  { get := fun name =>
      if name = "title" then some "Write report"
      else if name = "due_date" then some "2024-01-15"
      else if name = "estimated_hours" then some "3"
      else if name = "importance" then some "8"
      else none
    value := fun _ => "" }

/-- The form with every input empty. -/
def blankForm : Form :=
  { get := fun _ => some "", value := fun _ => "" }

/-- The page at session start, on the form tab, with the form filled in with
`reportTask`. -/
def startPage : Page :=
  { tasks := [], activeTab := "form-tab", bulkInput := "", strategy := "deadline",
    form := reportForm, formDefault := blankForm, loadingHidden := true, errorHidden := true,
    errorText := "", addedTasks := [], taskResults := [], resultsHidden := true,
    suggestions := [], log := [] }

/-- The page with three tasks in the working list. -/
def threeTaskPage : Page :=
  { startPage with tasks := [reportTask, loudTask, zeroHoursTask] }

/-- The page on the bulk tab with `loudBulkText` pasted in. -/
def bulkPage : Page :=
  { startPage with activeTab := "bulk-tab", bulkInput := loudBulkText }

/-- The page on the form tab with `reportTask` in the working list. -/
def reportPage : Page :=
  { startPage with tasks := [reportTask] }

/-- The page on the bulk tab with `endlessBulkText` pasted in. -/
def endlessBulkPage : Page :=
  { startPage with activeTab := "bulk-tab", bulkInput := endlessBulkText }

/-- The page on the bulk tab with a blank bulk text. -/
def blankBulkPage : Page :=
  { startPage with activeTab := "bulk-tab", bulkInput := "" }

/-- The analysis result of the first end-to-end scenario. -/
def reportResult : JSValue :=
  JSValue.obj
    [("title", JSValue.str "Write report"),
     ("due_date", JSValue.str "2024-01-15"),
     ("estimated_hours", JSValue.num (JSNumber.fin 3)),
     ("importance", JSValue.num (JSNumber.fin 8)),
     ("priority_score", JSValue.num (JSNumber.fin double_0_82)),
     ("explanation", JSValue.str "urgent")]

/-- A service that answers every request with status 200 and `reportResult`. -/
def sampleNet : Request → FetchOutcome :=
  fun _ =>
    FetchOutcome.responded true
      (Except.ok (JSValue.obj [("tasks", JSValue.arr [reportResult])]))

/-- A network on which every `fetch` rejects. -/
def downNet : Request → FetchOutcome :=
  fun _ => FetchOutcome.rejected ⟨"Failed to fetch"⟩

/-- A suggested task with the given title and score. -/
def suggestion (title : String) (score : ℚ) : JSValue :=
  JSValue.obj
    [("title", JSValue.str title),
     ("due_date", JSValue.str "2024-01-15"),
     ("estimated_hours", JSValue.num (JSNumber.fin 3)),
     ("importance", JSValue.num (JSNumber.fin 8)),
     ("priority_score", JSValue.num (JSNumber.fin score)),
     ("explanation", JSValue.str "urgent")]

/-- Three suggestions with the scores 0.9, 0.3 and 0.55. -/
def sampleSuggestions : List JSValue :=
  [suggestion "A" double_0_9, suggestion "B" double_0_3, suggestion "C" double_0_55]

/-- A suggestion whose title is an object with an own `toString` property. -/
def oddSuggestion : JSValue :=
  JSValue.obj [("title", JSValue.obj [("toString", JSValue.num (JSNumber.fin 1))])]

/-! ## Validation -/

theorem validateTask_fst (task : Task) (st : Page) :
    (validateTask task st).1 =
      (decide (task.title ≠ "") && decide (task.due_date ≠ "")
        && task.estimated_hours.truthy && task.importance.truthy
        && !task.estimated_hours.le (JSNumber.fin 0)
        && !task.importance.lt (JSNumber.fin 1) && !task.importance.gt (JSNumber.fin 10)) := by
  unfold validateTask
  simp only [JSValue.truthy]
  split_ifs with h1 h2 h3
  · simp only [Bool.or_eq_true, Bool.not_eq_true'] at h1
    rcases h1 with ((h | h) | h) | h <;> simp [h]
  · simp [h2]
  · simp only [Bool.or_eq_true] at h3
    rcases h3 with h | h <;> simp [h]
  · simp only [Bool.or_eq_true, Bool.not_eq_true', not_or, Bool.not_eq_false] at h1 h2 h3
    simp [h1, h2, h3]

theorem truthy_eq_false_iff (n : JSNumber) : n.truthy = false ↔ n.Falsy := by
  cases n <;> simp [JSNumber.truthy, JSNumber.Falsy]

theorem le_zero_iff (n : JSNumber) : n.le (JSNumber.fin 0) = true ↔ n.NonPositive := by
  cases n <;> simp [JSNumber.le, JSNumber.NonPositive]

theorem outside_iff (n : JSNumber) :
    (n.lt (JSNumber.fin 1) || n.gt (JSNumber.fin 10)) = true ↔ n.Outside 1 10 := by
  cases n <;> simp [JSNumber.lt, JSNumber.gt, JSNumber.Outside]

/-- C1: `validateTask` returns true if and only if the title is non-empty, the due date is
non-empty, estimated_hours is `> 0` and importance is `>= 1` and `<= 10` (a `NaN` satisfies
no comparison).  It holds for every number in the two numeric fields, integer or not. -/
theorem validateTask_true_iff (task : Task) (st : Page) :
    (validateTask task st).1 = true ↔
      task.title ≠ "" ∧ task.due_date ≠ "" ∧ task.estimated_hours.Positive
        ∧ task.importance.Between 1 10 := by
  rw [validateTask_fst]
  rcases task with ⟨title, due, hours, imp, deps⟩
  cases hours <;> cases imp <;>
    simp [JSNumber.truthy, JSNumber.le, JSNumber.lt, JSNumber.gt, JSNumber.Positive,
      JSNumber.Between]
  · constructor
    · rintro ⟨⟨⟨⟨⟨⟨h1, h2⟩, _⟩, _⟩, h5⟩, h6⟩, h7⟩
      exact ⟨h1, h2, h5, h6, h7⟩
    · rintro ⟨h1, h2, h5, h6, h7⟩
      refine ⟨⟨⟨⟨⟨⟨h1, h2⟩, h5.ne'⟩, ?_⟩, h5⟩, h6⟩, h7⟩
      intro h
      rw [h] at h6
      norm_num at h6
  · constructor
    · rintro ⟨⟨⟨⟨h1, h2⟩, _⟩, h6⟩, h7⟩
      exact ⟨h1, h2, h6, h7⟩
    · rintro ⟨h1, h2, h6, h7⟩
      refine ⟨⟨⟨⟨h1, h2⟩, ?_⟩, h6⟩, h7⟩
      intro h
      rw [h] at h6
      norm_num at h6

theorem validateTask_snd (task : Task) (st : Page) :
    (validateTask task st).2 =
      if task.MissingField then showError msgMissing st
      else if task.NonPositiveHours then showError msgHours st
      else if task.ImportanceOutOfRange then showError msgImportance st
      else st := by
  have hm : (!(JSValue.str task.title).truthy || !(JSValue.str task.due_date).truthy
      || !(JSValue.num task.estimated_hours).truthy || !(JSValue.num task.importance).truthy)
      = true ↔ task.MissingField := by
    simp only [JSValue.truthy, Task.MissingField, Bool.or_eq_true, Bool.not_eq_true',
      truthy_eq_false_iff, decide_eq_false_iff_not, ne_eq, not_not, or_assoc]
  unfold validateTask
  simp only [hm, le_zero_iff, outside_iff, Task.NonPositiveHours, Task.ImportanceOutOfRange]
  split_ifs <;> rfl

theorem validateTask_false_iff (task : Task) (st : Page) :
    (validateTask task st).1 = false ↔
      task.MissingField ∨ task.NonPositiveHours ∨ task.ImportanceOutOfRange := by
  have hm : (!(JSValue.str task.title).truthy || !(JSValue.str task.due_date).truthy
      || !(JSValue.num task.estimated_hours).truthy || !(JSValue.num task.importance).truthy)
      = true ↔ task.MissingField := by
    simp only [JSValue.truthy, Task.MissingField, Bool.or_eq_true, Bool.not_eq_true',
      truthy_eq_false_iff, decide_eq_false_iff_not, ne_eq, not_not, or_assoc]
  unfold validateTask
  simp only [hm, le_zero_iff, outside_iff, Task.NonPositiveHours, Task.ImportanceOutOfRange]
  split_ifs with h1 h2 h3 <;> simp [Task.NonPositiveHours, Task.ImportanceOutOfRange, *]

theorem highThreshold_is_double_0_7 :
    highThreshold = 6305039478318694 / 2 ^ 53
      ∧ highThreshold < 7 / 10
      ∧ 7 / 10 - highThreshold < 1 / 2 ^ 54
      ∧ 7 / 10 < highThreshold + 1 / 2 ^ 53 := by
  unfold highThreshold
  norm_num

theorem double_0_6999_is_nearest :
    double_0_6999 = 6304138758393220 / 2 ^ 53
      ∧ |double_0_6999 - 6999 / 10000| < 1 / 2 ^ 54 := by
  unfold double_0_6999
  rw [abs_lt]
  norm_num

theorem double_0_4999_is_nearest :
    double_0_4999 = 9005397814890044 / 2 ^ 54
      ∧ |double_0_4999 - 4999 / 10000| < 1 / 2 ^ 55 := by
  unfold double_0_4999
  rw [abs_lt]
  norm_num

/-- C2: on a score taken as an exact rational, `getPriorityClass` returns one of the three
tiers, `high-priority` exactly when the score is `>= 0.7`, `medium-priority` exactly when it
is `>= 0.5` and `< 0.7`, `low-priority` exactly when it is `< 0.5`, where `0.7` is the
number that the literal of the script denotes, of exact value
3152519739159347/4503599627370496, and `0.5` is 1/2; the number 0.7 is high, the number
0.6999 is medium, 0.5 is medium and the number 0.4999 is low. -/
theorem getPriorityClass_tiers (h : Host) (q : ℚ) :
    (getPriorityClass h (JSValue.num (JSNumber.fin q)) = Except.ok "high-priority"
        ∨ getPriorityClass h (JSValue.num (JSNumber.fin q)) = Except.ok "medium-priority"
        ∨ getPriorityClass h (JSValue.num (JSNumber.fin q)) = Except.ok "low-priority")
      ∧ (getPriorityClass h (JSValue.num (JSNumber.fin q)) = Except.ok "high-priority"
          ↔ 3152519739159347 / 4503599627370496 ≤ q)
      ∧ (getPriorityClass h (JSValue.num (JSNumber.fin q)) = Except.ok "medium-priority"
          ↔ 1 / 2 ≤ q ∧ q < 3152519739159347 / 4503599627370496)
      ∧ (getPriorityClass h (JSValue.num (JSNumber.fin q)) = Except.ok "low-priority"
          ↔ q < 1 / 2)
      ∧ getPriorityClass h
          (JSValue.num (JSNumber.fin (3152519739159347 / 4503599627370496)))
        = Except.ok "high-priority"
      ∧ getPriorityClass h
          (JSValue.num (JSNumber.fin (1576034689598305 / 2251799813685248)))
        = Except.ok "medium-priority"
      ∧ getPriorityClass h (JSValue.num (JSNumber.fin (1 / 2))) = Except.ok "medium-priority"
      ∧ getPriorityClass h
          (JSValue.num (JSNumber.fin (2251349453722511 / 4503599627370496)))
        = Except.ok "low-priority" := by
  have key : ∀ r : ℚ, getPriorityClass h (JSValue.num (JSNumber.fin r)) =
      Except.ok (if 3152519739159347 / 4503599627370496 ≤ r then "high-priority"
      else if 1 / 2 ≤ r then "medium-priority" else "low-priority") := by
    intro r
    simp only [getPriorityClass, getPriorityClassNum, JSValue.toNumber, JSNumber.ge,
      JSNumber.le, highThreshold, mediumThreshold, Except.map, decide_eq_true_eq]
  have inj : ∀ a b : String, (Except.ok a : Except Thrown String) = Except.ok b ↔ a = b :=
    fun a b => ⟨fun hab => by injection hab, fun hab => by rw [hab]⟩
  refine ⟨?_, ?_, ?_, ?_, ?_, ?_, ?_, ?_⟩
  · rw [key]; split_ifs <;> simp
  · rw [key, inj]; split_ifs with h1 h2 <;> simp [h1]
  · rw [key, inj]
    split_ifs with h1 h2
    · constructor
      · intro hh; exact absurd hh (by decide)
      · rintro ⟨_, hh⟩; exact absurd h1 (not_le.mpr hh)
    · constructor
      · intro _; exact ⟨h2, lt_of_not_le h1⟩
      · intro _; rfl
    · constructor
      · intro hh; exact absurd hh (by decide)
      · rintro ⟨hh, _⟩; exact absurd hh h2
  · rw [key, inj]
    split_ifs with h1 h2
    · constructor
      · intro hh; exact absurd hh (by decide)
      · intro hh; linarith
    · constructor
      · intro hh; exact absurd hh (by decide)
      · intro hh; exact absurd h2 (not_le.mpr hh)
    · constructor
      · intro _; exact lt_of_not_le h2
      · intro _; rfl
  · rw [key]; norm_num
  · rw [key]; norm_num
  · rw [key]; norm_num
  · rw [key]; norm_num

/-- C8: when `validateTask` rejects a task, the error banner is visible and carries the
message of the first failing rule, in the order missing field, non-positive hours,
importance out of range; one of the three rules does fail; and a task whose
estimated_hours is exactly 0 gets the missing-field message, not the non-positive-hours
one. -/
theorem validateTask_first_failing_rule (task : Task) (st : Page)
    (hrej : (validateTask task st).1 = false) :
    (validateTask task st).2.errorHidden = false
      ∧ (task.MissingField ∨ task.NonPositiveHours ∨ task.ImportanceOutOfRange)
      ∧ (task.MissingField →
          (validateTask task st).2.errorText = "Please fill in all required fields")
      ∧ (¬ task.MissingField → task.NonPositiveHours →
          (validateTask task st).2.errorText = "Estimated hours must be greater than 0")
      ∧ (¬ task.MissingField → ¬ task.NonPositiveHours → task.ImportanceOutOfRange →
          (validateTask task st).2.errorText = "Importance must be between 1 and 10")
      ∧ (task.estimated_hours = JSNumber.fin 0 →
          (validateTask task st).2.errorText = "Please fill in all required fields"
            ∧ (validateTask task st).2.errorText ≠ "Estimated hours must be greater than 0")
      ∧ (validateTask task st).2.tasks = st.tasks := by
  have hfail := (validateTask_false_iff task st).1 hrej
  rw [validateTask_snd]
  refine ⟨?_, hfail, ?_, ?_, ?_, ?_, ?_⟩
  · split_ifs with h1 h2 h3
    · rfl
    · rfl
    · rfl
    · rcases hfail with h | h | h
      · exact absurd h h1
      · exact absurd h h2
      · exact absurd h h3
  · intro h1
    rw [if_pos h1]; rfl
  · intro h1 h2
    rw [if_neg h1, if_pos h2]; rfl
  · intro h1 h2 h3
    rw [if_neg h1, if_neg h2, if_pos h3]; rfl
  · intro h0
    have h1 : task.MissingField := by
      right; right; left
      rw [h0]
      simp [JSNumber.Falsy]
    rw [if_pos h1]
    refine ⟨rfl, ?_⟩
    show "Please fill in all required fields" ≠ "Estimated hours must be greater than 0"
    decide
  · split_ifs <;> rfl

/-! ## The working list under `addTask` and `removeTask` -/

theorem updateTaskListFrom_tasks (h : Host) (items : List Task) (index : Nat) (st : Page) :
    (updateTaskListFrom h index items st).tasks = st.tasks := by
  induction items generalizing index st with
  | nil => rfl
  | cons task rest ih => simp only [updateTaskListFrom]; rw [ih]

theorem updateTaskListFrom_form (h : Host) (items : List Task) (index : Nat) (st : Page) :
    (updateTaskListFrom h index items st).form = st.form := by
  induction items generalizing index st with
  | nil => rfl
  | cons task rest ih => simp only [updateTaskListFrom]; rw [ih]

theorem removeTask_tasks (h : Host) (index : Int) (st : Page) :
    (removeTask h index st).tasks = splice1 st.tasks index := by
  simp only [removeTask, updateTaskList]
  rw [updateTaskListFrom_tasks]

theorem removeTask_form (h : Host) (index : Int) (st : Page) :
    (removeTask h index st).form = st.form := by
  simp only [removeTask, updateTaskList]
  rw [updateTaskListFrom_form]

theorem validateTask_tasks (task : Task) (st : Page) :
    (validateTask task st).2.tasks = st.tasks := by
  rw [validateTask_snd]
  split_ifs <;> rfl

theorem addTask_tasks (h : Host) (st : Page) :
    (addTask h st).tasks =
      if (validateTask (readTask h st.form) st).1 = true then
        st.tasks ++ [readTask h st.form]
      else st.tasks := by
  unfold addTask
  cases hv : (validateTask (readTask h st.form) st).1
  · simp [hv, validateTask_tasks]
  · simp only [hv, Bool.not_true, Bool.false_eq_true, if_false, if_true, updateTaskList]
    rw [updateTaskListFrom_tasks]
    simp [validateTask_tasks]

theorem splice1_of_length_le {α : Type} (xs : List α) (start : Int)
    (hge : (xs.length : Int) ≤ start) : splice1 xs start = xs := by
  have h0 : ¬ start < 0 := by omega
  simp only [splice1, if_neg h0, min_eq_right hge, sub_self]
  simp

theorem splice1_of_lt_length {α : Type} (xs : List α) (i : Nat) (hlt : i < xs.length) :
    splice1 xs (i : Int) = xs.eraseIdx i := by
  have h0 : ¬ ((i : Int) < 0) := by omega
  have h1 : min (i : Int) (xs.length : Int) = i := by omega
  have h2 : min (max (1 : Int) 0) ((xs.length : Int) - i) = 1 := by omega
  simp only [splice1, if_neg h0, h1, h2]
  rw [List.eraseIdx_eq_take_drop_succ]
  rfl

theorem splice1_of_neg {α : Type} (xs : List α) (start : Int) (hneg : start < 0) :
    splice1 xs start = xs.eraseIdx (max ((xs.length : Int) + start) 0).toNat := by
  simp only [splice1, if_pos hneg]
  rw [List.eraseIdx_eq_take_drop_succ]
  by_cases hx : xs.length = 0
  · have : xs = [] := List.eq_nil_of_length_eq_zero hx
    subst this
    simp
  · have h2 : min (max (1 : Int) 0) ((xs.length : Int) - max ((xs.length : Int) + start) 0) = 1 := by
      omega
    rw [h2]
    congr 2
    omega

theorem validateTask_fst_page (task : Task) (st st' : Page) :
    (validateTask task st).1 = (validateTask task st').1 := by
  rw [validateTask_fst, validateTask_fst]

/-- C8, at a concrete input: the task with estimated_hours 0 is rejected with the
missing-field message. -/
theorem validateTask_first_failing_rule_witness :
    (validateTask zeroHoursTask startPage).1 = false
      ∧ (validateTask zeroHoursTask startPage).2.errorText
          = "Please fill in all required fields" :=
  ⟨by decide,
    ((validateTask_first_failing_rule zeroHoursTask startPage (by decide)).2.2.2.2.2.1
      rfl).1⟩

/-- C3: after `addTask` the working list is the old list with the task read from the form
(its dependencies empty) appended at the end when `validateTask` accepts that task, and is
the old list when `validateTask` rejects it. -/
theorem addTask_working_list (h : Host) (st : Page) :
    (readTask h st.form).dependencies = []
      ∧ ((validateTask (readTask h st.form) st).1 = true →
          (addTask h st).tasks = st.tasks ++ [readTask h st.form])
      ∧ ((validateTask (readTask h st.form) st).1 = false →
          (addTask h st).tasks = st.tasks) := by
  refine ⟨rfl, ?_, ?_⟩
  · intro hv
    rw [addTask_tasks, if_pos hv]
  · intro hv
    rw [addTask_tasks, hv]
    rfl

/-- C3, at concrete inputs: the filled-in form appends `reportTask`; the blank form leaves
the list alone. -/
theorem addTask_working_list_witness :
    (addTask sampleHost threeTaskPage).tasks
        = [reportTask, loudTask, zeroHoursTask, reportTask]
      ∧ (addTask sampleHost { threeTaskPage with form := blankForm }).tasks
        = [reportTask, loudTask, zeroHoursTask] :=
  ⟨(addTask_working_list sampleHost threeTaskPage).2.1 (by decide),
   (addTask_working_list sampleHost { threeTaskPage with form := blankForm }).2.2
     (by decide)⟩

/-- C4 as stated fails: on a working list of three tasks, `removeTask(-1)` is out of
bounds and yet removes the last task. -/
theorem removeTask_negative_index_counterexample :
    ((-1 : Int) < 0 ∨ (threeTaskPage.tasks.length : Int) ≤ -1)
      ∧ (removeTask sampleHost (-1) threeTaskPage).tasks = [reportTask, loudTask]
      ∧ (removeTask sampleHost (-1) threeTaskPage).tasks ≠ threeTaskPage.tasks := by
  refine ⟨Or.inl (by decide), ?_, ?_⟩
  · rw [removeTask_tasks]; decide
  · rw [removeTask_tasks]; decide

/-- C4, amended: `removeTask(index)` leaves the working list as it is when the index is at
or past the end of the list; a negative index is counted from the end by `splice`, so the
task at position `max (length + index) 0` is removed (and the list is left as it is only
when it is empty). -/
theorem removeTask_out_of_bounds (h : Host) (st : Page) (index : Int) :
    ((st.tasks.length : Int) ≤ index → (removeTask h index st).tasks = st.tasks)
      ∧ (index < 0 →
          (removeTask h index st).tasks
            = st.tasks.eraseIdx (max ((st.tasks.length : Int) + index) 0).toNat)
      ∧ (index < 0 → st.tasks = [] → (removeTask h index st).tasks = st.tasks)
      ∧ (index < 0 → st.tasks ≠ [] →
          (removeTask h index st).tasks.length + 1 = st.tasks.length) := by
  refine ⟨?_, ?_, ?_, ?_⟩
  · intro hge
    rw [removeTask_tasks, splice1_of_length_le _ _ hge]
  · intro hneg
    rw [removeTask_tasks, splice1_of_neg _ _ hneg]
  · intro hneg hnil
    rw [removeTask_tasks, splice1_of_neg _ _ hneg, hnil]
    rfl
  · intro hneg hne
    have hpos : 0 < st.tasks.length := List.length_pos.2 hne
    rw [removeTask_tasks, splice1_of_neg _ _ hneg, List.length_eraseIdx_of_lt (by omega)]
    omega

/-- C4 amended, at concrete inputs: index 3 on three tasks changes nothing, index -5 on
three tasks removes the first. -/
theorem removeTask_out_of_bounds_witness :
    (removeTask sampleHost 3 threeTaskPage).tasks = [reportTask, loudTask, zeroHoursTask]
      ∧ (removeTask sampleHost (-5) threeTaskPage).tasks = [loudTask, zeroHoursTask] :=
  ⟨(removeTask_out_of_bounds sampleHost threeTaskPage 3).1 (by decide),
   (removeTask_out_of_bounds sampleHost threeTaskPage (-5)).2.1 (by decide)⟩

/-- C9: for an in-bounds index `i` and a form whose task `validateTask` accepts,
`removeTask(i)` followed by `addTask` leaves the original list with the element at
position `i` deleted, the others in their original order, and the new task last. -/
theorem removeTask_then_addTask (h : Host) (st : Page) (i : Nat) (hi : i < st.tasks.length)
    (hok : (validateTask (readTask h st.form) st).1 = true) :
    (addTask h (removeTask h (i : Int) st)).tasks
        = st.tasks.eraseIdx i ++ [readTask h st.form]
      ∧ (addTask h (removeTask h (i : Int) st)).tasks.length = st.tasks.length
      ∧ (∀ j, j < i → (addTask h (removeTask h (i : Int) st)).tasks[j]? = st.tasks[j]?)
      ∧ (∀ j, i ≤ j → j + 1 < st.tasks.length →
          (addTask h (removeTask h (i : Int) st)).tasks[j]? = st.tasks[j + 1]?)
      ∧ (addTask h (removeTask h (i : Int) st)).tasks[st.tasks.length - 1]?
          = some (readTask h st.form) := by
  have hok' : (validateTask (readTask h (removeTask h (i : Int) st).form)
      (removeTask h (i : Int) st)).1 = true := by
    rw [removeTask_form, validateTask_fst_page _ _ st]
    exact hok
  have key : (addTask h (removeTask h (i : Int) st)).tasks
      = st.tasks.eraseIdx i ++ [readTask h st.form] := by
    rw [addTask_tasks, if_pos hok', removeTask_tasks, removeTask_form,
      splice1_of_lt_length _ _ hi]
  have hlen : (st.tasks.eraseIdx i).length = st.tasks.length - 1 :=
    List.length_eraseIdx_of_lt hi
  refine ⟨key, ?_, ?_, ?_, ?_⟩
  · rw [key, List.length_append, hlen]
    simp
    omega
  · intro j hj
    rw [key, List.getElem?_append_left (by omega), List.getElem?_eraseIdx_of_lt _ _ _ hj]
  · intro j hij hj
    rw [key, List.getElem?_append_left (by omega), List.getElem?_eraseIdx_of_ge _ _ _ hij]
  · rw [key, List.getElem?_append_right (by omega), hlen]
    simp

/-- C9, at concrete inputs: removing the task at position 1 of three and adding
`reportTask` keeps the other two in order and puts `reportTask` last. -/
theorem removeTask_then_addTask_witness :
    (addTask sampleHost (removeTask sampleHost 1 threeTaskPage)).tasks
      = [reportTask, zeroHoursTask, reportTask] :=
  (removeTask_then_addTask sampleHost threeTaskPage 1 (by decide) (by decide)).1

/-! ## The analysis cycle -/

theorem quiet_appendChild (id : String) (child : Elem) :
    (Effect.appendChild id child).Quiet :=
  ⟨rfl, rfl, rfl⟩

theorem quiet_setInnerHTML (id html : String) : (Effect.setInnerHTML id html).Quiet :=
  ⟨rfl, rfl, rfl⟩

theorem quiet_setText (id text : String) : (Effect.setText id text).Quiet :=
  ⟨rfl, rfl, rfl⟩

theorem quiet_classRemove_results : (Effect.classRemove "results" "hidden").Quiet :=
  ⟨by decide, rfl, rfl⟩

theorem quiet_classRemove_error : (Effect.classRemove "error" "hidden").Quiet :=
  ⟨by decide, rfl, rfl⟩

theorem displayResultsLoop_frame (h : Host) (items : List JSValue) (st : Page) :
    ∃ ev, (displayResultsLoop h items st).2.log = st.log ++ ev
      ∧ (∀ e ∈ ev, e.Quiet)
      ∧ (displayResultsLoop h items st).2.loadingHidden = st.loadingHidden := by
  induction items generalizing st with
  | nil => exact ⟨[], by simp [displayResultsLoop], by simp, rfl⟩
  | cons task rest ih =>
    simp only [displayResultsLoop]
    cases hd : resultDiv h task with
    | error e => exact ⟨[], by simp, by simp, rfl⟩
    | ok taskDiv =>
      obtain ⟨ev, hlog, hq, hl⟩ := ih
        { st with
          taskResults := st.taskResults ++ [taskDiv]
          log := st.log ++ [Effect.appendChild "task-results" taskDiv] }
      refine ⟨Effect.appendChild "task-results" taskDiv :: ev, ?_, ?_, ?_⟩
      · simp only [hlog]; simp
      · intro e he
        rcases List.mem_cons.1 he with rfl | he
        · exact quiet_appendChild _ _
        · exact hq e he
      · simp only [hl]

theorem displayResults_frame (h : Host) (tasks : JSValue) (st : Page) :
    ∃ ev, (displayResults h tasks st).2.log = st.log ++ ev
      ∧ (∀ e ∈ ev, e.Quiet)
      ∧ (displayResults h tasks st).2.loadingHidden = st.loadingHidden := by
  have other : ∀ t : Thrown, ∃ ev,
      ({ st with taskResults := [],
                 log := st.log ++ [Effect.setInnerHTML "task-results" ""] } : Page).log
        = st.log ++ ev ∧ (∀ e ∈ ev, e.Quiet) :=
    fun _ => ⟨[Effect.setInnerHTML "task-results" ""], rfl, by
      intro e he
      rcases List.mem_singleton.1 he with rfl
      exact quiet_setInnerHTML _ _⟩
  cases tasks with
  | arr items =>
    simp only [displayResults]
    obtain ⟨ev, hlog, hq, hl⟩ := displayResultsLoop_frame h items
      { st with taskResults := [], log := st.log ++ [Effect.setInnerHTML "task-results" ""] }
    rcases hres : displayResultsLoop h items
      { st with taskResults := [], log := st.log ++ [Effect.setInnerHTML "task-results" ""] }
      with ⟨_ | e, st2⟩
    · rw [hres] at hlog hl
      refine ⟨Effect.setInnerHTML "task-results" "" :: ev
        ++ [Effect.classRemove "results" "hidden"], ?_, ?_, ?_⟩
      · simp only [] at hlog ⊢
        rw [hlog]; simp
      · intro e he
        simp only [List.cons_append, List.mem_cons, List.mem_append, List.not_mem_nil,
          or_false] at he
        rcases he with rfl | he | rfl
        · exact quiet_setInnerHTML _ _
        · exact hq e he
        · exact quiet_classRemove_results
      · exact hl
    · rw [hres] at hlog hl
      refine ⟨Effect.setInnerHTML "task-results" "" :: ev, ?_, ?_, ?_⟩
      · simp only [] at hlog ⊢
        rw [hlog]; simp
      · intro e' he
        rcases List.mem_cons.1 he with rfl | he
        · exact quiet_setInnerHTML _ _
        · exact hq e' he
      · exact hl
  | undefined =>
    obtain ⟨ev, hlog, hq⟩ := other ⟨""⟩
    exact ⟨ev, hlog, hq, rfl⟩
  | null =>
    obtain ⟨ev, hlog, hq⟩ := other ⟨""⟩
    exact ⟨ev, hlog, hq, rfl⟩
  | bool b =>
    obtain ⟨ev, hlog, hq⟩ := other ⟨""⟩
    exact ⟨ev, hlog, hq, rfl⟩
  | num n =>
    obtain ⟨ev, hlog, hq⟩ := other ⟨""⟩
    exact ⟨ev, hlog, hq, rfl⟩
  | str x =>
    obtain ⟨ev, hlog, hq⟩ := other ⟨""⟩
    exact ⟨ev, hlog, hq, rfl⟩
  | obj props =>
    obtain ⟨ev, hlog, hq⟩ := other ⟨""⟩
    exact ⟨ev, hlog, hq, rfl⟩

theorem analyzeTry_frame (h : Host) (net : Request → FetchOutcome) (ts : List JSValue)
    (strategy : String) (st : Page) :
    ∃ ev, (analyzeTry h net ts strategy st).2.log
        = st.log ++ Effect.fetch (analyzeRequest ts strategy) :: ev
      ∧ (∀ e ∈ ev, e.Quiet)
      ∧ (analyzeTry h net ts strategy st).2.loadingHidden = st.loadingHidden := by
  have none_more : ∃ ev,
      ({ st with log := st.log ++ [Effect.fetch (analyzeRequest ts strategy)] } : Page).log
        = st.log ++ Effect.fetch (analyzeRequest ts strategy) :: ev
      ∧ (∀ e ∈ ev, e.Quiet) := ⟨[], rfl, by simp⟩
  unfold analyzeTry
  simp only []
  cases net (analyzeRequest ts strategy) with
  | rejected e =>
    obtain ⟨ev, hlog, hq⟩ := none_more
    exact ⟨ev, hlog, hq, rfl⟩
  | responded ok body =>
    cases body with
    | error e =>
      obtain ⟨ev, hlog, hq⟩ := none_more
      exact ⟨ev, hlog, hq, rfl⟩
    | ok data =>
      cases ok with
      | false =>
        simp only [Bool.not_false, if_true]
        cases data.get h "error" with
        | error e =>
          obtain ⟨ev, hlog, hq⟩ := none_more
          exact ⟨ev, hlog, hq, rfl⟩
        | ok err =>
          simp only []
          cases JSValue.toStr h
              (if err.truthy = true then err else JSValue.str "Failed to analyze tasks") with
          | error e =>
            obtain ⟨ev, hlog, hq⟩ := none_more
            exact ⟨ev, hlog, hq, rfl⟩
          | ok message =>
            obtain ⟨ev, hlog, hq⟩ := none_more
            exact ⟨ev, hlog, hq, rfl⟩
      | true =>
        simp only [Bool.not_true, Bool.false_eq_true, if_false]
        cases data.get h "tasks" with
        | error e =>
          obtain ⟨ev, hlog, hq⟩ := none_more
          exact ⟨ev, hlog, hq, rfl⟩
        | ok tasks =>
          obtain ⟨ev, hlog, hq, hl⟩ := displayResults_frame h tasks
            { st with log := st.log ++ [Effect.fetch (analyzeRequest ts strategy)] }
          refine ⟨ev, ?_, hq, hl⟩
          simp only [] at hlog ⊢
          rw [hlog]; simp

theorem showLoading_false_log (st : Page) :
    (showLoading false st).log = st.log ++ [Effect.classAdd "loading" "hidden"] := rfl

theorem showError_log (m : String) (st : Page) :
    (showError m st).log
      = st.log ++ [Effect.setText "error" m, Effect.classRemove "error" "hidden"] := rfl

theorem hideError_showLoading_log (st : Page) :
    (hideError (showLoading true st)).log
      = st.log ++ [Effect.classRemove "loading" "hidden", Effect.classAdd "error" "hidden"] := by
  simp [hideError, showLoading]

theorem analyzeResolved_frame (h : Host) (net : Request → FetchOutcome) (ts : List JSValue)
    (st : Page) (hne : ts ≠ []) :
    ∃ mid, (analyzeResolved h net ts st).log
        = st.log ++ (Effect.classRemove "loading" "hidden" :: Effect.classAdd "error" "hidden"
            :: Effect.fetch (analyzeRequest ts st.strategy) :: mid)
          ++ [Effect.classAdd "loading" "hidden"]
      ∧ (∀ e ∈ mid, e.Quiet)
      ∧ (analyzeResolved h net ts st).loadingHidden = true := by
  have hlen : ¬ ts.length = 0 := fun h0 => hne (List.eq_nil_of_length_eq_zero h0)
  obtain ⟨ev, hlog, hq, -⟩ := analyzeTry_frame h net ts st.strategy
    (hideError (showLoading true st))
  unfold analyzeResolved
  simp only [if_neg hlen]
  cases hthrown : (analyzeTry h net ts st.strategy (hideError (showLoading true st))).1 with
  | none =>
    refine ⟨ev, ?_, hq, rfl⟩
    rw [showLoading_false_log, hlog, hideError_showLoading_log]
    simp
  | some error =>
    refine ⟨ev ++ [Effect.setText "error" ("Error analyzing tasks: " ++ error.message),
      Effect.classRemove "error" "hidden"], ?_, ?_, rfl⟩
    · rw [showLoading_false_log, showError_log, hlog, hideError_showLoading_log]
      simp
    · intro e he
      simp only [List.mem_append, List.mem_cons, List.not_mem_nil, or_false] at he
      rcases he with he | rfl | rfl
      · exact hq e he
      · exact quiet_setText _ _
      · exact quiet_classRemove_error

theorem effectsSince_append (st st' : Page) (ev : List Effect) (hlog : st'.log = st.log ++ ev) :
    effectsSince st st' = ev := by
  unfold effectsSince
  rw [hlog, List.drop_left]

theorem analyzeTasks_of_resolves (h : Host) (net : Request → FetchOutcome) (st : Page)
    (ts : List JSValue) (hres : Resolves h st ts) :
    analyzeTasks h net st = analyzeResolved h net ts st := by
  unfold analyzeTasks
  rcases hres with ⟨htab, hts⟩ | ⟨htab, hblank, hparse⟩
  · rw [if_pos htab, hts]
  · rw [if_neg htab]
    simp only [JSValue.truthy, hparse]
    simp [hblank]

theorem analyzeTasks_of_blank (h : Host) (net : Request → FetchOutcome) (st : Page)
    (hb : BulkBlank h st) : analyzeTasks h net st = showError msgBulkBlank st := by
  unfold analyzeTasks
  rw [if_neg hb.1]
  simp [JSValue.truthy, hb.2]

theorem analyzeTasks_of_unparseable (h : Host) (net : Request → FetchOutcome) (st : Page)
    (m : String) (hb : BulkUnparseable h st m) :
    analyzeTasks h net st = showError ("Invalid JSON format: " ++ m) st := by
  unfold analyzeTasks
  rw [if_neg hb.1]
  simp only [JSValue.truthy, hb.2.2]
  simp [hb.2.1]

theorem analyzeTasks_of_notArray (h : Host) (net : Request → FetchOutcome) (st : Page)
    (v : JSValue) (hb : BulkNotArray h st v) :
    analyzeTasks h net st = showError ("Invalid JSON format: " ++ msgNotArray) st := by
  obtain ⟨htab, hblank, hparse, harr⟩ := hb
  unfold analyzeTasks
  rw [if_neg htab]
  simp only [JSValue.truthy, hparse]
  cases v <;> simp_all [JSValue.isArray]

theorem analyzeTasks_of_zero (h : Host) (net : Request → FetchOutcome) (st : Page)
    (hz : ZeroTasks h st) : analyzeTasks h net st = showError msgNoTasks st := by
  rw [analyzeTasks_of_resolves h net st [] hz]
  rfl

theorem Task.toJS_injective (t t' : Task) (heq : t.toJS = t'.toJS) : t = t' := by
  rcases t with ⟨a, b, c, d, e⟩
  rcases t' with ⟨a', b', c', d', e'⟩
  simp only [Task.toJS, JSValue.obj.injEq, List.cons.injEq, Prod.mk.injEq, JSValue.str.injEq,
    JSValue.num.injEq, JSValue.arr.injEq, true_and, and_true] at heq
  obtain ⟨h1, h2, h3, h4, h5⟩ := heq
  have h6 : e = e' :=
    List.map_injective_iff.2 (fun x y hxy => JSValue.str.inj hxy) h5
  subst h1 h2 h3 h4 h6
  rfl

theorem requestsIn_quiet (ev : List Effect) (hq : ∀ e ∈ ev, e.Quiet) : requestsIn ev = [] := by
  induction ev with
  | nil => rfl
  | cons e rest ih =>
    have he := (hq e (List.mem_cons_self _ _)).2.2
    have hrest := ih (fun x hx => hq x (List.mem_cons_of_mem _ hx))
    unfold requestsIn at hrest ⊢
    rw [List.filterMap_cons, he]
    exact hrest

theorem countP_shows_quiet (ev : List Effect) (hq : ∀ e ∈ ev, e.Quiet) :
    ev.countP Effect.showsLoading = 0 :=
  List.countP_eq_zero.2 (fun e he => by simp [(hq e he).1])

theorem countP_clears_quiet (ev : List Effect) (hq : ∀ e ∈ ev, e.Quiet) :
    ev.countP Effect.clearsLoading = 0 :=
  List.countP_eq_zero.2 (fun e he => by simp [(hq e he).2.1])

theorem analyzeResolved_effects (h : Host) (net : Request → FetchOutcome) (ts : List JSValue)
    (st : Page) (hne : ts ≠ []) :
    ∃ mid, effectsSince st (analyzeResolved h net ts st)
        = Effect.classRemove "loading" "hidden" :: Effect.classAdd "error" "hidden"
            :: Effect.fetch (analyzeRequest ts st.strategy)
            :: (mid ++ [Effect.classAdd "loading" "hidden"])
      ∧ (∀ e ∈ mid, e.Quiet) := by
  obtain ⟨mid, hlog, hq, -⟩ := analyzeResolved_frame h net ts st hne
  refine ⟨mid, ?_, hq⟩
  apply effectsSince_append
  rw [hlog]
  simp

theorem analyzeTasks_cases (h : Host) (net : Request → FetchOutcome) (st : Page) :
    (∃ ts, Resolves h st ts ∧ ts ≠ []) ∨ (∃ m, analyzeTasks h net st = showError m st) := by
  by_cases htab : st.activeTab = "form-tab"
  · by_cases hnil : st.tasks.map Task.toJS = []
    · right
      exact ⟨msgNoTasks, analyzeTasks_of_zero h net st (Or.inl ⟨htab, hnil.symm⟩)⟩
    · left
      exact ⟨_, Or.inl ⟨htab, rfl⟩, hnil⟩
  · by_cases hblank : h.trim st.bulkInput = ""
    · right
      exact ⟨msgBulkBlank, analyzeTasks_of_blank h net st ⟨htab, hblank⟩⟩
    · cases hparse : h.jsonParse (h.trim st.bulkInput) with
      | error m =>
        right
        exact ⟨_, analyzeTasks_of_unparseable h net st m ⟨htab, hblank, hparse⟩⟩
      | ok v =>
        cases harr : v.isArray with
        | false =>
          right
          exact ⟨_, analyzeTasks_of_notArray h net st v ⟨htab, hblank, hparse, harr⟩⟩
        | true =>
          cases v with
          | arr items =>
            by_cases hnil : items = []
            · right
              subst hnil
              exact ⟨msgNoTasks, analyzeTasks_of_zero h net st (Or.inr ⟨htab, hblank, hparse⟩)⟩
            · left
              exact ⟨items, Or.inr ⟨htab, hblank, hparse⟩, hnil⟩
          | _ => simp [JSValue.isArray] at harr

/-- C5: when `analyzeTasks` resolves a non-empty task list, then whatever the network
answers (the fetch rejects, the body does not parse, the status is not ok, the status is ok,
rendering throws), the effects of the call begin with showing the loading indicator, end
with clearing it, show it once and clear it once, contain one request, and the call ends
with the indicator hidden. -/
theorem analyzeTasks_loading_cleared_once (h : Host) (net : Request → FetchOutcome)
    (st : Page) (ts : List JSValue) (hres : Resolves h st ts) (hne : ts ≠ []) :
    (effectsSince st (analyzeTasks h net st)).head?
        = some (Effect.classRemove "loading" "hidden")
      ∧ (effectsSince st (analyzeTasks h net st)).getLast?
        = some (Effect.classAdd "loading" "hidden")
      ∧ (effectsSince st (analyzeTasks h net st)).countP Effect.showsLoading = 1
      ∧ (effectsSince st (analyzeTasks h net st)).countP Effect.clearsLoading = 1
      ∧ (requestsIn (effectsSince st (analyzeTasks h net st))).length = 1
      ∧ (analyzeTasks h net st).loadingHidden = true := by
  rw [analyzeTasks_of_resolves h net st ts hres]
  obtain ⟨mid, heff, hq⟩ := analyzeResolved_effects h net ts st hne
  obtain ⟨-, -, -, hl⟩ := analyzeResolved_frame h net ts st hne
  rw [heff]
  refine ⟨rfl, ?_, ?_, ?_, ?_, hl⟩
  · rw [show Effect.classRemove "loading" "hidden" :: Effect.classAdd "error" "hidden"
          :: Effect.fetch (analyzeRequest ts st.strategy)
          :: (mid ++ [Effect.classAdd "loading" "hidden"])
        = (Effect.classRemove "loading" "hidden" :: Effect.classAdd "error" "hidden"
          :: Effect.fetch (analyzeRequest ts st.strategy) :: mid)
          ++ [Effect.classAdd "loading" "hidden"] from rfl]
    exact List.getLast?_concat _
  · simp [List.countP_cons, List.countP_append, countP_shows_quiet mid hq,
      Effect.showsLoading]
  · simp [List.countP_cons, List.countP_append, countP_clears_quiet mid hq,
      Effect.clearsLoading]
  · have hmid := requestsIn_quiet mid hq
    unfold requestsIn at hmid ⊢
    simp only [List.filterMap_cons, List.filterMap_append, Effect.request?, hmid]
    rfl

/-- C5, at concrete inputs: with `reportTask` in the working list the loading indicator
ends hidden both when the service answers and when the fetch rejects. -/
theorem analyzeTasks_loading_cleared_once_witness :
    (analyzeTasks sampleHost sampleNet reportPage).loadingHidden = true
      ∧ (analyzeTasks sampleHost downNet reportPage).loadingHidden = true :=
  ⟨(analyzeTasks_loading_cleared_once sampleHost sampleNet reportPage [reportTask.toJS]
      (Or.inl ⟨rfl, rfl⟩) (by simp)).2.2.2.2.2,
   (analyzeTasks_loading_cleared_once sampleHost downNet reportPage [reportTask.toJS]
      (Or.inl ⟨rfl, rfl⟩) (by simp)).2.2.2.2.2⟩

theorem showError_effects (m : String) (st : Page) :
    effectsSince st (showError m st)
      = [Effect.setText "error" m, Effect.classRemove "error" "hidden"] :=
  effectsSince_append st _ _ (showError_log m st)

/-- C6: when `analyzeTasks` resolves zero tasks, or the bulk text is blank, does not parse
or parses to a value that is not an array, the only effects of the call are the two that
display an error message: the loading indicator is not shown, no request is issued, the
working list is untouched; the message is the no-tasks one in the zero-task cases. -/
theorem analyzeTasks_nothing_to_send (h : Host) (net : Request → FetchOutcome) (st : Page)
    (hfail : ZeroTasks h st ∨ BulkBlank h st ∨ (∃ m, BulkUnparseable h st m)
      ∨ (∃ v, BulkNotArray h st v)) :
    (analyzeTasks h net st).errorHidden = false
      ∧ effectsSince st (analyzeTasks h net st)
        = [Effect.setText "error" (analyzeTasks h net st).errorText,
           Effect.classRemove "error" "hidden"]
      ∧ (effectsSince st (analyzeTasks h net st)).countP Effect.showsLoading = 0
      ∧ requestsIn (effectsSince st (analyzeTasks h net st)) = []
      ∧ (analyzeTasks h net st).loadingHidden = st.loadingHidden
      ∧ (analyzeTasks h net st).tasks = st.tasks
      ∧ (ZeroTasks h st →
          (analyzeTasks h net st).errorText = "Please add at least one task to analyze")
      ∧ (BulkBlank h st →
          (analyzeTasks h net st).errorText
            = "Please enter tasks in JSON format or switch to single task input")
      ∧ (∀ m, BulkUnparseable h st m →
          (analyzeTasks h net st).errorText = "Invalid JSON format: " ++ m)
      ∧ (∀ v, BulkNotArray h st v →
          (analyzeTasks h net st).errorText
            = "Invalid JSON format: Input must be an array of tasks") := by
  have hshow : ∃ m, analyzeTasks h net st = showError m st := by
    rcases hfail with hz | hb | ⟨m, hu⟩ | ⟨v, hn⟩
    · exact ⟨_, analyzeTasks_of_zero h net st hz⟩
    · exact ⟨_, analyzeTasks_of_blank h net st hb⟩
    · exact ⟨_, analyzeTasks_of_unparseable h net st m hu⟩
    · exact ⟨_, analyzeTasks_of_notArray h net st v hn⟩
  obtain ⟨m, hm⟩ := hshow
  refine ⟨?_, ?_, ?_, ?_, ?_, ?_, ?_, ?_, ?_, ?_⟩
  · rw [hm]; rfl
  · rw [hm, showError_effects]; rfl
  · rw [hm, showError_effects]; rfl
  · rw [hm, showError_effects]; rfl
  · rw [hm]; rfl
  · rw [hm]; rfl
  · intro hz
    rw [analyzeTasks_of_zero h net st hz]; rfl
  · intro hb
    rw [analyzeTasks_of_blank h net st hb]; rfl
  · intro m' hu
    rw [analyzeTasks_of_unparseable h net st m' hu]; rfl
  · intro v hn
    rw [analyzeTasks_of_notArray h net st v hn]; rfl

/-- C6, at concrete inputs: the form tab with an empty working list and the bulk tab with
a blank text both end with an error shown and no request. -/
theorem analyzeTasks_nothing_to_send_witness :
    (analyzeTasks sampleHost sampleNet startPage).errorText
        = "Please add at least one task to analyze"
      ∧ requestsIn (effectsSince blankBulkPage (analyzeTasks sampleHost sampleNet blankBulkPage))
        = [] :=
  ⟨(analyzeTasks_nothing_to_send sampleHost sampleNet startPage
      (Or.inl (Or.inl ⟨rfl, rfl⟩))).2.2.2.2.2.2.1 (Or.inl ⟨rfl, rfl⟩),
   (analyzeTasks_nothing_to_send sampleHost sampleNet blankBulkPage
      (Or.inr (Or.inl ⟨by decide, by decide⟩))).2.2.2.1⟩

theorem validateTask_rejects_999 (t : Task) (st : Page)
    (himp : t.importance = JSNumber.fin 999) : (validateTask t st).1 = false := by
  rw [validateTask_false_iff]
  by_cases hm : t.MissingField
  · exact Or.inl hm
  · right; right
    unfold Task.ImportanceOutOfRange
    rw [himp]
    simp only [JSNumber.Outside]
    right
    norm_num

theorem stringifyItems_length (ts : List JSValue) :
    (stringifyItems ts).length = ts.length := by
  induction ts with
  | nil => simp [stringifyItems]
  | cons v rest ih => simp [stringifyItems, ih]

theorem stringifyItems_getElem? (ts : List JSValue) (k : Nat) (v : JSValue)
    (hv : ts[k]? = some v) :
    (stringifyItems ts)[k]? = some ((v.stringify).getD Json.null) := by
  induction ts generalizing k with
  | nil => simp at hv
  | cons w rest ih =>
    cases k with
    | zero =>
      simp only [List.getElem?_cons_zero, Option.some.injEq] at hv
      subst hv
      simp [stringifyItems]
    | succ k =>
      simp only [List.getElem?_cons_succ] at hv
      simp only [stringifyItems, List.getElem?_cons_succ]
      exact ih k hv

theorem stringifyItems_mem (ts : List JSValue) (v : JSValue) (hv : v ∈ ts) :
    (v.stringify).getD Json.null ∈ stringifyItems ts := by
  obtain ⟨k, hk⟩ := List.mem_iff_getElem?.1 hv
  exact List.mem_iff_getElem?.2 ⟨k, stringifyItems_getElem? ts k v hk⟩

theorem stringifyItems_map_str (deps : List String) :
    stringifyItems (deps.map JSValue.str) = deps.map Json.string := by
  induction deps with
  | nil => simp [stringifyItems]
  | cons d rest ih => simp [stringifyItems, JSValue.stringify, ih]

theorem valuesOf_map_string (deps : List String) :
    valuesOf (deps.map Json.string) = deps.map JSValue.str := by
  induction deps with
  | nil => simp [valuesOf]
  | cons d rest ih => simp [valuesOf, Json.value, ih]

theorem Task.stringify_toJS (t : Task) : t.toJS.stringify = some t.toJson := by
  simp [Task.toJS, Task.toJson, JSValue.stringify, stringifyProps, stringifyItems_map_str]

theorem Task.toJson_value (t : Task) (a b : ℚ) (ha : t.estimated_hours = JSNumber.fin a)
    (hb : t.importance = JSNumber.fin b) : t.toJson.value = t.toJS := by
  simp [Task.toJS, Task.toJson, Json.value, membersOf, valuesOf_map_string, ha, hb,
    JSNumber.toJson]

theorem analyzeRequest_body (ts : List JSValue) (strategy : String) :
    (analyzeRequest ts strategy).body = some (bodyOf (stringifyItems ts) strategy) := by
  simp [analyzeRequest, bodyOf, JSValue.stringify, stringifyProps]

/-- C7 as stated fails: the bulk text holding a task whose estimated_hours is `1e999`
resolves to one element with estimated_hours `Infinity`; the request goes out, and the
element in its body has estimated_hours `null`, so what the body carries is not the
resolved element. -/
theorem analyzeTasks_payload_counterexample :
    sampleHost.jsonParse (sampleHost.trim endlessBulkPage.bulkInput)
        = Except.ok (JSValue.arr [endlessTask.toJS])
      ∧ requestsIn (effectsSince endlessBulkPage
          (analyzeTasks sampleHost sampleNet endlessBulkPage))
        = [analyzeRequest [endlessTask.toJS] "deadline"]
      ∧ (analyzeRequest [endlessTask.toJS] "deadline").body
        = some (bodyOf
            [Json.object
              [("title", Json.string "Forever"),
               ("due_date", Json.string "2024-02-01"),
               ("estimated_hours", Json.null),
               ("importance", Json.number 5),
               ("dependencies", Json.array [])]]
            "deadline")
      ∧ valuesOf (stringifyItems [endlessTask.toJS]) ≠ [endlessTask.toJS] := by
  refine ⟨rfl, rfl, rfl, ?_⟩
  have hsent : stringifyItems [endlessTask.toJS] = [endlessTask.toJson] := by
    simp [stringifyItems, Task.stringify_toJS]
  rw [hsent]
  simp [valuesOf, Task.toJson, Task.toJS, Json.value, membersOf, endlessTask,
    JSNumber.toJson]

/-- C7, amended: every request that `analyzeTasks` issues is the only one of the call, and
its body is the JSON text of the object whose `strategy` is the selected one and whose
`tasks` is the resolved sequence `ts` itself (the working list on the form tab, the array
parsed from the bulk text on the other tab, `validateTask` applied to neither): the
`tasks` array of the body has one element per element of `ts`, in the same order, each the
serialisation of that element.  A task object is sent as `Task.toJson` spells out: title,
due_date and dependencies as they are, estimated_hours and importance as they are when
finite and as `null` otherwise; with both finite the sent element denotes the task
object itself.  So a resolved task of importance 999, which `validateTask` rejects, is in
the body with importance 999. -/
theorem analyzeTasks_payload_serialised (h : Host) (net : Request → FetchOutcome) (st : Page)
    (req : Request) (hreq : req ∈ requestsIn (effectsSince st (analyzeTasks h net st))) :
    ∃ ts : List JSValue,
      ((st.activeTab = "form-tab" ∧ ts = st.tasks.map Task.toJS)
          ∨ (st.activeTab ≠ "form-tab"
              ∧ h.jsonParse (h.trim st.bulkInput) = Except.ok (JSValue.arr ts)))
        ∧ requestsIn (effectsSince st (analyzeTasks h net st)) = [req]
        ∧ req.body
          = some (Json.object
              [("tasks", Json.array (stringifyItems ts)), ("strategy", Json.string st.strategy)])
        ∧ (stringifyItems ts).length = ts.length
        ∧ (∀ (k : Nat) (v : JSValue), ts[k]? = some v →
            (stringifyItems ts)[k]? = some ((v.stringify).getD Json.null))
        ∧ (∀ (k : Nat) (t : Task), ts[k]? = some t.toJS →
            (stringifyItems ts)[k]?
              = some (Json.object
                  [("title", Json.string t.title),
                   ("due_date", Json.string t.due_date),
                   ("estimated_hours", t.estimated_hours.toJson),
                   ("importance", t.importance.toJson),
                   ("dependencies", Json.array (t.dependencies.map Json.string))]))
        ∧ (st.activeTab = "form-tab" → ∀ (k : Nat) (t : Task), st.tasks[k]? = some t →
            (stringifyItems ts)[k]? = some t.toJson)
        ∧ (∀ (t : Task) (a b : ℚ), t.estimated_hours = JSNumber.fin a →
            t.importance = JSNumber.fin b → t.toJson.value = t.toJS)
        ∧ (∀ (t : Task) (a : ℚ), t.toJS ∈ ts → t.estimated_hours = JSNumber.fin a →
            t.importance = JSNumber.fin 999 →
            (validateTask t st).1 = false
              ∧ Json.object
                  [("title", Json.string t.title),
                   ("due_date", Json.string t.due_date),
                   ("estimated_hours", Json.number a),
                   ("importance", Json.number 999),
                   ("dependencies", Json.array (t.dependencies.map Json.string))]
                ∈ stringifyItems ts) := by
  rcases analyzeTasks_cases h net st with ⟨ts, hres, hne⟩ | ⟨m, hm⟩
  · obtain ⟨mid, heff, hq⟩ := analyzeResolved_effects h net ts st hne
    have hreqs : requestsIn (effectsSince st (analyzeTasks h net st))
        = [analyzeRequest ts st.strategy] := by
      rw [analyzeTasks_of_resolves h net st ts hres, heff]
      have hmid := requestsIn_quiet mid hq
      unfold requestsIn at hmid ⊢
      simp only [List.filterMap_cons, List.filterMap_append, Effect.request?, hmid]
      rfl
    rw [hreqs] at hreq ⊢
    have hr : req = analyzeRequest ts st.strategy := List.mem_singleton.1 hreq
    subst hr
    have htask : ∀ (k : Nat) (t : Task), ts[k]? = some t.toJS →
        (stringifyItems ts)[k]? = some t.toJson := by
      intro k t hk
      rw [stringifyItems_getElem? ts k _ hk, Task.stringify_toJS]
      rfl
    refine ⟨ts, ?_, rfl, analyzeRequest_body ts st.strategy, stringifyItems_length ts,
      stringifyItems_getElem? ts, htask, ?_, Task.toJson_value, ?_⟩
    · rcases hres with ⟨htab, hts⟩ | ⟨hn, _, hparse⟩
      · exact Or.inl ⟨htab, hts⟩
      · exact Or.inr ⟨hn, hparse⟩
    · intro htab k t hk
      apply htask
      rcases hres with ⟨_, hts⟩ | ⟨hn, _, _⟩
      · rw [hts, List.getElem?_map, hk]
        rfl
      · exact absurd htab hn
    · intro t a hmem ha himp
      refine ⟨validateTask_rejects_999 t st himp, ?_⟩
      have hsent := stringifyItems_mem ts t.toJS hmem
      rw [Task.stringify_toJS] at hsent
      simpa [Task.toJson, ha, himp, JSNumber.toJson] using hsent
  · rw [hm, showError_effects] at hreq
    exact absurd hreq (by simp [requestsIn, Effect.request?])

/-- C7 amended, at concrete inputs: the bulk text holding a task of importance 999 is sent
with importance 999, although `validateTask` rejects that task. -/
theorem analyzeTasks_payload_serialised_witness :
    (validateTask loudTask bulkPage).1 = false
      ∧ requestsIn (effectsSince bulkPage (analyzeTasks sampleHost sampleNet bulkPage))
        = [analyzeRequest [loudTask.toJS] "deadline"]
      ∧ (analyzeRequest [loudTask.toJS] "deadline").body
        = some (Json.object
            [("tasks", Json.array
              [Json.object
                [("title", Json.string "Ship it"),
                 ("due_date", Json.string "2024-02-01"),
                 ("estimated_hours", Json.number 2),
                 ("importance", Json.number 999),
                 ("dependencies", Json.array [])]]),
             ("strategy", Json.string "deadline")]) := by
  obtain ⟨ts, -, hreqs, -⟩ := analyzeTasks_payload_serialised sampleHost sampleNet bulkPage
    (analyzeRequest [loudTask.toJS] "deadline") (List.mem_singleton.2 rfl)
  exact ⟨by decide, hreqs, rfl⟩

/-! ## Suggestions -/

theorem toStr_of_isPrimitive (h : Host) (v : JSValue) (hp : v.isPrimitive = true) :
    v.toStr h = Except.ok (v.text h) := by
  cases v with
  | arr items => simp [JSValue.isPrimitive] at hp
  | obj props => simp [JSValue.isPrimitive] at hp
  | bool b => cases b <;> rfl
  | undefined => rfl
  | null => rfl
  | num n => rfl
  | str x => rfl

theorem suggestionDiv_of_renderable (h : Host) (task : JSValue) (k : Nat)
    (hobj : Renderable task) :
    suggestionDiv h task k = Except.ok (suggestionEntry h task k) := by
  obtain ⟨hnn, hprim⟩ := hobj
  have h1 := toStr_of_isPrimitive h _ (hprim "title" (by decide))
  have h2 := toStr_of_isPrimitive h _ (hprim "priority_score" (by decide))
  have h3 := toStr_of_isPrimitive h _ (hprim "due_date" (by decide))
  have h4 := toStr_of_isPrimitive h _ (hprim "estimated_hours" (by decide))
  have h5 := toStr_of_isPrimitive h _ (hprim "importance" (by decide))
  have h6 := toStr_of_isPrimitive h _ (hprim "explanation" (by decide))
  simp [suggestionDiv, JSValue.get, hnn, suggestionEntry, bind, Except.bind, pure,
    Except.pure, h1, h2, h3, h4, h5, h6]

theorem displaySuggestionsFrom_entries (h : Host) (items : List JSValue) (k : Nat) (st : Page)
    (hobj : ∀ t ∈ items, Renderable t) :
    (displaySuggestionsFrom h k items st).1 = none
      ∧ (displaySuggestionsFrom h k items st).2.suggestions
        = st.suggestions ++ suggestionEntriesFrom h k items := by
  induction items generalizing k st with
  | nil => simp [displaySuggestionsFrom, suggestionEntriesFrom]
  | cons task rest ih =>
    have h1 := hobj task (List.mem_cons_self _ _)
    have h2 : ∀ t ∈ rest, Renderable t := fun t ht => hobj t (List.mem_cons_of_mem _ ht)
    simp only [displaySuggestionsFrom, suggestionDiv_of_renderable h task k h1,
      suggestionEntriesFrom]
    obtain ⟨ha, hb⟩ := ih (k + 1)
      { st with
        suggestions := st.suggestions ++ [suggestionEntry h task k]
        log := st.log ++ [Effect.appendChild "suggestions-results" (suggestionEntry h task k)] }
      h2
    refine ⟨ha, ?_⟩
    rw [hb]
    simp

theorem suggestionEntriesFrom_length (h : Host) (items : List JSValue) (k : Nat) :
    (suggestionEntriesFrom h k items).length = items.length := by
  induction items generalizing k with
  | nil => rfl
  | cons task rest ih => simp [suggestionEntriesFrom, ih]

theorem suggestionEntriesFrom_getElem? (h : Host) (items : List JSValue) (k j : Nat)
    (t : JSValue) (ht : items[j]? = some t) :
    (suggestionEntriesFrom h k items)[j]? = some (suggestionEntry h t (k + j)) := by
  induction items generalizing k j with
  | nil => simp at ht
  | cons task rest ih =>
    cases j with
    | zero =>
      simp only [List.getElem?_cons_zero, Option.some.injEq] at ht
      subst ht
      simp [suggestionEntriesFrom]
    | succ j =>
      simp only [List.getElem?_cons_succ] at ht
      simp only [suggestionEntriesFrom, List.getElem?_cons_succ]
      rw [ih (k + 1) j ht]
      congr 2
      omega

/-- C10: for a list of suggested tasks (each one not `null`, its six rendered properties
primitives or absent, as in the data model), `displaySuggestions` does not throw and
leaves in the panel the fixed heading followed by exactly one entry per task, in input
order; the entry of the task at 0-based position `k` has the class
`task-result high-priority`, whatever the task holds, and its markup opens with the title
`#k+1: ` followed by the text of the task title. -/
theorem displaySuggestions_entries (h : Host) (st : Page) (items : List JSValue)
    (hobj : ∀ t ∈ items, Renderable t) :
    (displaySuggestions h (JSValue.arr items) st).1 = none
      ∧ (displaySuggestions h (JSValue.arr items) st).2.suggestions
        = suggestionsHeading :: suggestionEntriesFrom h 0 items
      ∧ (displaySuggestions h (JSValue.arr items) st).2.suggestions.length = items.length + 1
      ∧ (displaySuggestions h (JSValue.arr items) st).2.suggestions[0]?
        = some { tag := "h3", className := "", innerHTML := "Top 3 Tasks for Today:" }
      ∧ (∀ (k : Nat) (t : JSValue), items[k]? = some t →
          ∃ title e rest, (t.prop "title").toStr h = Except.ok title
            ∧ (displaySuggestions h (JSValue.arr items) st).2.suggestions[k + 1]? = some e
            ∧ e.tag = "div"
            ∧ e.className = "task-result high-priority"
            ∧ e.innerHTML
              = "\n                <div class=\"task-title\">#"
                ++ (toString (k + 1) ++ (": " ++ (title ++ ("</div>" ++ rest)))))
      ∧ (∀ (k : Nat) (t : JSValue) (s : String), items[k]? = some t →
          t.prop "title" = JSValue.str s →
          ∃ e rest,
            (displaySuggestions h (JSValue.arr items) st).2.suggestions[k + 1]? = some e
            ∧ e.className = "task-result high-priority"
            ∧ e.innerHTML
              = "\n                <div class=\"task-title\">#"
                ++ (toString (k + 1) ++ (": " ++ (s ++ ("</div>" ++ rest))))) := by
  have hloop := displaySuggestionsFrom_entries h items 0
    { st with
      suggestions := [suggestionsHeading]
      log := st.log
        ++ [Effect.setInnerHTML "suggestions-results" "<h3>Top 3 Tasks for Today:</h3>"] }
    hobj
  have hsugg : (displaySuggestions h (JSValue.arr items) st).2.suggestions
      = suggestionsHeading :: suggestionEntriesFrom h 0 items := by
    simp only [displaySuggestions]
    rw [hloop.2]
    rfl
  have hentry : ∀ (k : Nat) (t : JSValue), items[k]? = some t →
      ∃ rest, (displaySuggestions h (JSValue.arr items) st).2.suggestions[k + 1]?
          = some (suggestionEntry h t k)
        ∧ (suggestionEntry h t k).innerHTML
          = "\n                <div class=\"task-title\">#"
            ++ (toString (k + 1) ++ (": " ++ ((t.prop "title").text h ++ ("</div>" ++ rest)))) := by
    intro k t hk
    refine ⟨"\n                <div class=\"task-score\">" ++ (t.prop "priority_score").text h
      ++ "</div>\n                <div class=\"task-details\">\n                    <div class=\"task-detail\"><strong>Due:</strong> "
      ++ (t.prop "due_date").text h
      ++ "</div>\n                    <div class=\"task-detail\"><strong>Hours:</strong> "
      ++ (t.prop "estimated_hours").text h
      ++ "</div>\n                    <div class=\"task-detail\"><strong>Importance:</strong> "
      ++ (t.prop "importance").text h
      ++ "/10</div>\n                </div>\n                <div class=\"task-explanation\">"
      ++ (t.prop "explanation").text h ++ "</div>\n            ", ?_, ?_⟩
    · rw [hsugg, List.getElem?_cons_succ, suggestionEntriesFrom_getElem? h items 0 k t hk]
      simp
    · have hsplit : "</div>\n                <div class=\"task-score\">"
          = "</div>" ++ "\n                <div class=\"task-score\">" := by decide
      simp only [suggestionEntry, suggestionHTML]
      rw [hsplit]
      simp only [String.append_assoc]
  refine ⟨?_, hsugg, ?_, ?_, ?_, ?_⟩
  · simp only [displaySuggestions]
    exact hloop.1
  · rw [hsugg, List.length_cons, suggestionEntriesFrom_length]
  · rw [hsugg, List.getElem?_cons_zero]
    rfl
  · intro k t hk
    obtain ⟨rest, hget, hhtml⟩ := hentry k t hk
    have hren : Renderable t := hobj t (List.mem_iff_getElem?.2 ⟨k, hk⟩)
    exact ⟨(t.prop "title").text h, suggestionEntry h t k, rest,
      toStr_of_isPrimitive h _ (hren.2 "title" (by decide)), hget, rfl, rfl, hhtml⟩
  · intro k t s hk hs
    obtain ⟨rest, hget, hhtml⟩ := hentry k t hk
    refine ⟨suggestionEntry h t k, rest, hget, rfl, ?_⟩
    rw [hhtml, hs]
    rfl

/-- C10, at concrete inputs: the scores 0.9, 0.3 and 0.55 give three entries, all with
the class `task-result high-priority`, titled `#1`, `#2` and `#3` in input order, although
`getPriorityClass` puts 0.3 in the low tier; a suggestion whose title is an object with an
own `toString` property makes the call throw. -/
theorem displaySuggestions_entries_witness :
    (displaySuggestions sampleHost (JSValue.arr sampleSuggestions) startPage).1 = none
      ∧ (displaySuggestions sampleHost (JSValue.arr sampleSuggestions) startPage).2.suggestions
        = [Elem.mk "h3" "" "Top 3 Tasks for Today:",
           Elem.mk "div" "task-result high-priority"
             "\n                <div class=\"task-title\">#1: A</div>\n                <div class=\"task-score\">0.9</div>\n                <div class=\"task-details\">\n                    <div class=\"task-detail\"><strong>Due:</strong> 2024-01-15</div>\n                    <div class=\"task-detail\"><strong>Hours:</strong> 3</div>\n                    <div class=\"task-detail\"><strong>Importance:</strong> 8/10</div>\n                </div>\n                <div class=\"task-explanation\">urgent</div>\n            ",
           Elem.mk "div" "task-result high-priority"
             "\n                <div class=\"task-title\">#2: B</div>\n                <div class=\"task-score\">0.3</div>\n                <div class=\"task-details\">\n                    <div class=\"task-detail\"><strong>Due:</strong> 2024-01-15</div>\n                    <div class=\"task-detail\"><strong>Hours:</strong> 3</div>\n                    <div class=\"task-detail\"><strong>Importance:</strong> 8/10</div>\n                </div>\n                <div class=\"task-explanation\">urgent</div>\n            ",
           Elem.mk "div" "task-result high-priority"
             "\n                <div class=\"task-title\">#3: C</div>\n                <div class=\"task-score\">0.55</div>\n                <div class=\"task-details\">\n                    <div class=\"task-detail\"><strong>Due:</strong> 2024-01-15</div>\n                    <div class=\"task-detail\"><strong>Hours:</strong> 3</div>\n                    <div class=\"task-detail\"><strong>Importance:</strong> 8/10</div>\n                </div>\n                <div class=\"task-explanation\">urgent</div>\n            "]
      ∧ getPriorityClass sampleHost (JSValue.num (JSNumber.fin double_0_3))
        = Except.ok "low-priority"
      ∧ (displaySuggestions sampleHost (JSValue.arr [oddSuggestion]) startPage).1
        = some ⟨"Cannot convert object to primitive value"⟩ :=
  ⟨(displaySuggestions_entries sampleHost startPage sampleSuggestions (by decide)).1,
   by decide!,
   by norm_num [getPriorityClass, getPriorityClassNum, JSValue.toNumber, Except.map,
     JSNumber.ge, JSNumber.le, highThreshold, mediumThreshold, double_0_3],
   by decide!⟩

end TaskAnalyzer
